import Mathlib

/-!
Verification development for the mouseTube API publication pipeline.

The Python source (Django + Celery) is shallowly embedded: pure helpers become
Lean functions, database rows become records, the remote repository (Zenodo)
and the filesystem become explicit environment parameters, and functions that
can raise become state-plus-`Except` values.  Python truthiness (`if not x:`)
is modelled explicitly for each field type.
-/

namespace Mousetube


/-- Python exception classes raised by the pipeline code. -/
inductive PyErr where
  | valueError (msg : String)
  | validationError (msg : String)
  | httpError (msg : String)
  | notImplementedError (msg : String)
  | doesNotExist (msg : String)
  deriving Repr, DecidableEq

deriving instance DecidableEq for Except

/-- Python truthiness of an optional integer field: `None` and `0` are falsy. -/
def pyTruthyNat : Option Nat → Bool
  | none => false
  | some n => n != 0

/-- Python truthiness of an optional string field: `None` and `""` are falsy. -/
def pyTruthyStr : Option String → Bool
  | none => false
  | some s => s != ""

/-- Python `str(x)` of an optional string (used in f-strings): `None` prints as "None". -/
def pyStr : Option String → String
  | none => "None"
  | some s => s

/-! ### String helpers (list-of-characters implementations of the Python
library calls the pipeline uses). -/

/-- `s.startswith(pre)`. -/
def strStartsWith (s pre : String) : Bool :=
  pre.data.isPrefixOf s.data

/-- `s[n:]` (drop the first `n` characters). -/
def strDrop (s : String) (n : Nat) : String :=
  ⟨s.data.drop n⟩

/-- Python `str.strip()` with no argument: remove leading and trailing
whitespace.  (Python also strips some further Unicode whitespace characters;
links are ASCII so the difference is immaterial.) -/
def pyStrip (s : String) : String :=
  ⟨((s.data.dropWhile Char.isWhitespace).reverse.dropWhile Char.isWhitespace).reverse⟩

/-- Python `str.lower()` (ASCII case folding; repository names are ASCII). -/
def pyLower (s : String) : String :=
  ⟨s.data.map Char.toLower⟩

/-- Value of a hexadecimal digit, if the character is one. -/
def hexDigitVal? (c : Char) : Option Nat :=
  if '0' ≤ c ∧ c ≤ '9' then some (c.toNat - '0'.toNat)
  else if 'a' ≤ c ∧ c ≤ 'f' then some (c.toNat - 'a'.toNat + 10)
  else if 'A' ≤ c ∧ c ≤ 'F' then some (c.toNat - 'A'.toNat + 10)
  else none

/-- Core of `urllib.parse.unquote`: decode `%XX` escapes.  A `%` not followed
by two hex digits is kept literally, as in Python.  (Python additionally
reassembles consecutive escaped bytes as UTF-8; for the ASCII escapes that
occur in file links the two agree byte for byte.) -/
def unquoteChars : List Char → List Char
  | [] => []
  | '%' :: a :: b :: rest =>
    match hexDigitVal? a, hexDigitVal? b with
    | some ha, some hb => Char.ofNat (16 * ha + hb) :: unquoteChars rest
    | _, _ => '%' :: unquoteChars (a :: b :: rest)
  | c :: rest => c :: unquoteChars rest

/-- `urllib.parse.unquote` on a string. -/
def pyUnquote (s : String) : String :=
  ⟨unquoteChars s.data⟩

/-- Split a character list on `/` (Python `p.split('/')`). -/
def splitOnSlash : List Char → List (List Char)
  | [] => [[]]
  | c :: rest =>
    let r := splitOnSlash rest
    if c = '/' then [] :: r
    else
      match r with
      | h :: t => (c :: h) :: t
      | [] => [[c]]

/-- `posixpath.normpath`: collapse `//`, `.` and `..` segments, following the
CPython algorithm (including the special treatment of exactly two leading
slashes and of `..` at the root of an absolute path). -/
def posix_normpath (p : String) : String :=
  if p = "" then "."
  else
    let initialSlashes : Nat :=
      if strStartsWith p "/" then
        if strStartsWith p "//" ∧ ¬ strStartsWith p "///" then 2 else 1
      else 0
    let comps := (splitOnSlash p.data).map (fun cs => (⟨cs⟩ : String))
    let newComps := comps.foldl (fun acc comp =>
      if comp = "" ∨ comp = "." then acc
      else if comp ≠ ".." ∨ (initialSlashes = 0 ∧ acc = []) ∨ acc.getLast? = some ".." then
        acc ++ [comp]
      else if acc ≠ [] then acc.dropLast
      else acc) []
    let path := String.intercalate "/" newComps
    let path := (⟨List.replicate initialSlashes '/'⟩ : String) ++ path
    if path = "" then "." else path

/-- `posixpath.join` restricted to two arguments, as used by the resolver:
an absolute second component replaces the first, otherwise a `/` separator is
inserted unless the first part is empty or already ends in `/`. -/
def os_path_join (a b : String) : String :=
  if strStartsWith b "/" then b
  else if a = "" ∨ a.data.getLast? = some '/' then a ++ b
  else a ++ "/" ++ b

/-- `posixpath.basename`: everything after the last `/`. -/
def os_path_basename (p : String) : String :=
  ⟨((splitOnSlash p.data).getLastD [])⟩

/-- Characters of a path component up to the first `?` or `#`. -/
def takeUntilQueryOrFragment : List Char → List Char
  | [] => []
  | c :: rest => if c = '?' ∨ c = '#' then [] else c :: takeUntilQueryOrFragment rest

/-- Skip the network-location part of a URL: characters after `scheme://` up
to the first `/` (kept), or nothing if `?`/`#`/end of string comes first. -/
def dropNetloc : List Char → List Char
  | [] => []
  | c :: rest =>
    if c = '/' then c :: rest
    else if c = '?' ∨ c = '#' then []
    else dropNetloc rest

/-- The `.path` component of `urllib.parse.urlsplit`, for a link that starts
with `http://` or `https://`: strip scheme and host, stop at query/fragment. -/
def urlsplit_path (l : String) : String :=
  let afterScheme := if strStartsWith l "https://" then strDrop l 8 else strDrop l 7
  ⟨takeUntilQueryOrFragment (dropNetloc afterScheme.data)⟩

/-! ### `mousetube_api/utils/file_handler.py` -/

/-- `link_to_local_path(file_instance)` from `utils/file_handler.py`, as a
function of the Django settings `MEDIA_ROOT` and `TEMP_ROOT` and the stored
`File.link` value (`none` models SQL NULL).  Raising `ValueError` is modelled
by `Except.error (.valueError _)`. -/
def link_to_local_path (MEDIA_ROOT TEMP_ROOT : String) (link : Option String) :
    Except PyErr String :=
  match link with
  | none => .error (.valueError "File link is empty")
  | some l =>
    if l = "" then .error (.valueError "File link is empty")
    else
      let l := pyStrip l
      let l := if strStartsWith l "http://" ∨ strStartsWith l "https://" then urlsplit_path l else l
      let path :=
        if strStartsWith l "/media/" then os_path_join MEDIA_ROOT (strDrop l 7)
        else if strStartsWith l "/temp/" then os_path_join TEMP_ROOT (strDrop l 6)
        else l
      .ok (posix_normpath (pyUnquote path))

/-- Spec-side restatement of the resolver (for claim C7), written from the
spec's numbered rules: (1) an empty link fails; (2) an absolute http(s) URL is
reduced to its path component; (3) a `/media/` path is rewritten under the
media root; (4) a `/temp/` path is rewritten under the temp root; (5) anything
else is kept as-is; the result is URL-decoded and path-normalized. -/
def resolveSpecRules (MEDIA_ROOT TEMP_ROOT : String) (link : Option String) :
    Except PyErr String :=
  if link = none ∨ link = some "" then .error (.valueError "File link is empty")
  else
    let raw := pyStrip ((link.getD ""))
    let p := if strStartsWith raw "http://" ∨ strStartsWith raw "https://" then urlsplit_path raw else raw
    let p :=
      if strStartsWith p "/media/" then os_path_join MEDIA_ROOT (strDrop p 7)
      else if strStartsWith p "/temp/" then os_path_join TEMP_ROOT (strDrop p 6)
      else p
    .ok (posix_normpath (pyUnquote p))

/-! ### Data model

`File` rows as read and written by the pipeline.  The copy of `models.py` in
the snapshot predates `tasks.py`/`utils/zenodo.py`; the fields those modules
use but the stale model file lacks (`status`, `external_id`, `external_url`)
are modelled from spec §3: `status` is a free-form string, `external_id` is
the remote deposition identifier once assigned, `doi`/`link`/`name` are
nullable strings, `repository` is a nullable reference (stored here as the
`Repository` primary key). -/
structure FileRec where
  id : Nat
  name : Option String
  link : Option String
  recording_session : Option Nat
  status : String
  doi : Option String
  external_id : Option Nat
  external_url : Option String
  is_valid_link : Bool
  repository : Option Nat
  sampling_rate : Option Nat
  duration : Option Nat
  bit_depth : Option Nat
  format : Option String
  deriving Repr, DecidableEq

/-- A row of the `Repository` table (the fields the pipeline reads). -/
structure RepositoryRec where
  id : Nat
  name : String
  deriving Repr, DecidableEq

/-! ### `mousetube_api/tasks.py`: `extract_metadata` -/

/-- What `soundfile.SoundFile` reports about a readable audio file. -/
structure AudioInfo where
  samplerate : Nat
  frames : Nat
  subtype : String
  deriving Repr, DecidableEq

/-- The audio-container extension allow-list from `tasks.py`. -/
def AUDIO_EXTENSIONS : List String := [".wav", ".flac", ".aiff", ".aif", ".ogg", ".mp3"]

/-- The `bit_depth_map.get(f.subtype)` dictionary lookup from `extract_metadata`. -/
def bit_depth_map (subtype : String) : Option Nat :=
  if subtype = "PCM_16" then some 16
  else if subtype = "PCM_24" then some 24
  else if subtype = "PCM_32" then some 32
  else if subtype = "FLOAT" then some 32
  else if subtype = "DOUBLE" then some 64
  else none

/-- `os.path.splitext`: split off the extension at the last `.` of the final
path component, ignoring leading dots of that component (CPython algorithm). -/
def os_path_splitext (p : String) : String × String :=
  let cs := p.data
  let sepIdx : Option Nat := ((cs.enum.filter (fun x => x.2 = '/')).getLast?).map (·.1)
  let dotIdx : Option Nat := ((cs.enum.filter (fun x => x.2 = '.')).getLast?).map (·.1)
  match dotIdx with
  | none => (p, "")
  | some d =>
    let s := match sepIdx with | none => 0 | some i => i + 1
    if s ≤ d ∧ ((cs.drop s).take (d - s)).any (fun c => c ≠ '.') then
      (⟨cs.take d⟩, ⟨cs.drop d⟩)
    else (p, "")

/-- Python `str.upper()` (ASCII). -/
def pyUpper (s : String) : String :=
  ⟨s.data.map Char.toUpper⟩

/-- `extract_metadata(file_instance, local_path)` from `tasks.py`.

The soundfile library is modelled by `audio : String → Option AudioInfo`
(`none` = `RuntimeError` on open, which the source converts to a
`ValidationError`).  Python's `int(len(f) / f.samplerate)` truncates the
nonnegative quotient, i.e. natural division.  The returned list is the
`updated_fields` passed to `save` — the row is persisted iff it is nonempty. -/
def extract_metadata (audio : String → Option AudioInfo) (file_instance : FileRec)
    (local_path : String) : Except PyErr (FileRec × List String) :=
  let ext := (os_path_splitext local_path).2
  if pyLower ext ∉ AUDIO_EXTENSIONS then
    .error (.validationError s!"Unsupported audio format: {ext}")
  else
    match audio local_path with
    | none => .error (.validationError "Cannot read audio file")
    | some f =>
      let st :=
        if ¬ pyTruthyNat file_instance.sampling_rate then
          ({ file_instance with sampling_rate := some f.samplerate }, ["sampling_rate"])
        else (file_instance, ([] : List String))
      let st :=
        if ¬ pyTruthyNat st.1.duration then
          ({ st.1 with duration := some (f.frames / f.samplerate) }, st.2 ++ ["duration"])
        else st
      let st :=
        if ¬ pyTruthyNat st.1.bit_depth then
          ({ st.1 with bit_depth := bit_depth_map f.subtype }, st.2 ++ ["bit_depth"])
        else st
      let st :=
        if ¬ pyTruthyStr st.1.format then
          ({ st.1 with
              format := some (pyUpper ⟨(pyLower (os_path_splitext local_path).2).data.dropWhile (· = '.')⟩) },
            st.2 ++ ["format"])
        else st
      .ok st

/-- A `File` row whose four metadata attributes are all populated. -/
def fullFileRec : FileRec :=
  { id := 5, name := some "a.wav", link := some "/media/a.wav", recording_session := some 1,
    status := "done", doi := none, external_id := none, external_url := none,
    is_valid_link := false, repository := none, sampling_rate := some 44100,
    duration := some 2, bit_depth := some 16, format := some "WAV" }

/-! ### `mousetube_api/utils/repository.py`: adapter dispatch -/

/-- Filesystem state: maps a path to the size of the file there, if any
(`os.path.exists` / `os.path.getsize`). -/
abbrev FS := String → Option Nat

/-- The metadata payload sent to the remote repository.  Its content never
flows back into locally persisted state, so it is left abstract. -/
abbrev Payload := Unit

/-- A handler module as resolved by `importlib.import_module`: each operation
is `some` function when the module has a callable attribute of that name, and
`none` when the attribute is missing or not callable.  The operations are the
shapes of the Zenodo adapter's functions with database/filesystem state passed
explicitly: `prepare_deposition_for_session` and `publish_deposition` return
the saved file rows (and filesystem) together with the outcome. -/
structure HandlerModule where
  build_metadata_payload : Option (List FileRec → Payload)
  prepare_deposition_for_session : Option (List FileRec → Option FileRec → List FileRec × FS × Except PyErr Nat)
  publish_deposition : Option (List FileRec → Option Payload → List FileRec × Except PyErr String)
  delete_file : Option (FileRec → Except PyErr Bool)
  METADATA_SCHEMA : Option Payload

/-- `get_repository_handler(repository)`: resolve the handler module named by
the lower-cased, stripped repository name; a missing module
(`ModuleNotFoundError`) becomes `NotImplementedError`.  The installed modules
are the environment `modules`. -/
def get_repository_handler (modules : String → Option HandlerModule)
    (repository : RepositoryRec) : Except PyErr HandlerModule :=
  let repo_name := pyStrip (pyLower repository.name)
  match modules repo_name with
  | some m => .ok m
  | none => .error (.notImplementedError s!"Repository '{repository.name}' is not yet supported.")

/-- `get_repository_metadata_schema(repository)`: `getattr(handler,
"METADATA_SCHEMA", None)`. -/
def get_repository_metadata_schema (modules : String → Option HandlerModule)
    (repository : RepositoryRec) : Except PyErr (Option Payload) := do
  let handler ← get_repository_handler modules repository
  .ok handler.METADATA_SCHEMA

/-- `build_repository_metadata_payload(repository, recording_session, files=None)`:
with `files=None` the non-pending/processing/error files of the session are
used; a missing or non-callable `build_metadata_payload` is a
`NotImplementedError`. -/
def build_repository_metadata_payload (modules : String → Option HandlerModule)
    (repository : RepositoryRec) (sessionFiles : List FileRec)
    (files : Option (List FileRec)) : Except PyErr Payload := do
  let handler ← get_repository_handler modules repository
  let files := match files with
    | none => sessionFiles.filter (fun f =>
        f.status != "pending" && f.status != "processing" && f.status != "error")
    | some fs => fs
  match handler.build_metadata_payload with
  | some build_func => .ok (build_func files)
  | none => .error (.notImplementedError
      s!"Repository '{repository.name}' does not implement 'build_metadata_payload'")

/-- `prepare_repository_deposition_for_session(repository, recording_session,
file_instance)`: dispatch to the handler's `prepare_deposition_for_session`.
The outer `Except` is the dispatch layer (nothing ran, no state changed); the
inner triple is the handler's state-plus-outcome result. -/
def prepare_repository_deposition_for_session (modules : String → Option HandlerModule)
    (repository : RepositoryRec) (sessionFiles : List FileRec)
    (file_instance : Option FileRec) :
    Except PyErr (List FileRec × FS × Except PyErr Nat) := do
  let handler ← get_repository_handler modules repository
  match handler.prepare_deposition_for_session with
  | some func => .ok (func sessionFiles file_instance)
  | none => .error (.notImplementedError
      s!"Repository '{repository.name}' does not implement 'prepare_deposition_for_session'")

/-- `delete_repository_file(repository, file_instance)`. -/
def delete_repository_file (modules : String → Option HandlerModule)
    (repository : RepositoryRec) (file_instance : FileRec) :
    Except PyErr (Except PyErr Bool) := do
  let handler ← get_repository_handler modules repository
  match handler.delete_file with
  | some func => .ok (func file_instance)
  | none => .error (.notImplementedError
      s!"Repository '{repository.name}' does not implement 'delete_file'")

/-- `publish_repository_deposition(repository, recording_session, payload=None)`. -/
def publish_repository_deposition (modules : String → Option HandlerModule)
    (repository : RepositoryRec) (files : List FileRec) (payload : Option Payload) :
    Except PyErr (List FileRec × Except PyErr String) := do
  let handler ← get_repository_handler modules repository
  match handler.publish_deposition with
  | some func => .ok (func files payload)
  | none => .error (.notImplementedError
      s!"Repository '{repository.name}' does not implement 'publish_deposition'")

/-- A resolved handler module none of whose operations are callable. -/
def emptyHandlerModule : HandlerModule :=
  { build_metadata_payload := none, prepare_deposition_for_session := none,
    publish_deposition := none, delete_file := none, METADATA_SCHEMA := none }

/-- A module environment in which only the name "zenodo" resolves. -/
def witnessModules : String → Option HandlerModule :=
  fun repo_name => if repo_name = "zenodo" then some emptyHandlerModule else none

/-- A repository whose normalized name has no handler module. -/
def ghostRepository : RepositoryRec := { id := 9, name := "Figshare" }

/-- A repository whose name normalizes (lower-case, strip) to "zenodo". -/
def zenodoNamedRepository : RepositoryRec := { id := 1, name := " Zenodo " }

/-! ### `mousetube_api/utils/zenodo.py`: the deposition builder -/

/-- Whether `pat` occurs as a contiguous run inside the list. -/
def listIsInfix (pat : List Char) : List Char → Bool
  | [] => pat.isEmpty
  | c :: rest => pat.isPrefixOf (c :: rest) || listIsInfix pat rest

/-- `"sub" in s` (Python substring containment). -/
def strContains (s sub : String) : Bool :=
  listIsInfix sub.data s.data

/-- Environment of the Zenodo adapter: Django settings, the filesystem, and
the outcomes of the remote HTTP calls made during one invocation.
`createDeposition` is the result of `POST /deposit/depositions` (a fresh
deposition id, or an HTTP error); `uploadFile dep name` says whether the
multipart upload of `name` to deposition `dep` returns 2xx; `putMetadata` is
the outcome of the metadata `PUT` (whose payload never flows back into local
state); `publishAction` is `POST .../actions/publish` (error text, or a
response whose optional `doi` field is returned); `zenodoRepoRow` is the row
`Repository.objects.get_or_create(name="Zenodo")` yields. -/
structure ZenodoEnv where
  MEDIA_ROOT : String
  TEMP_ROOT : String
  ZENODO_API : String
  fs : FS
  createDeposition : Except String Nat
  uploadFile : Nat → String → Bool
  putMetadata : Bool
  publishAction : Except String (Option String)
  zenodoRepoRow : RepositoryRec
  deleteFileImpl : FileRec → Except PyErr Bool

/-- The eligible-file query of `prepare_deposition_for_session`:
`File.objects.filter(recording_session=...).exclude(status__in=["pending",
"processing", "error"]).exclude(doi__isnull=False)`. -/
def eligibleFiles (sessionFiles : List FileRec) : List FileRec :=
  sessionFiles.filter (fun f =>
    (f.status != "pending" && f.status != "processing" && f.status != "error") && f.doi == none)

/-- `if new_file and new_file not in files: files = list(files) + [new_file]`
(queryset membership compares primary keys). -/
def filesForDeposition (sessionFiles : List FileRec) (new_file : Option FileRec) :
    List FileRec :=
  let files := eligibleFiles sessionFiles
  match new_file with
  | some nf => if files.any (fun f => f.id == nf.id) then files else files ++ [nf]
  | none => files

/-- Deposition-id determination: reuse the first file that has both a
`repository` and an `external_id` (both truthy); otherwise create a new
remote draft and tag with the "Zenodo" repository row.  (`getD 0` is only
reached under the `isSome` guards of the `find?` predicate.) -/
def depositionTarget (createDeposition : Except String Nat) (zenodoRepoRow : RepositoryRec)
    (files : List FileRec) : Except PyErr (Nat × Nat) :=
  match files.find? (fun f => f.repository.isSome && f.external_id.isSome) with
  | some existing_file => .ok (existing_file.external_id.getD 0, existing_file.repository.getD 0)
  | none =>
    match createDeposition with
    | .error msg => .error (.httpError msg)
    | .ok deposition_id => .ok (deposition_id, zenodoRepoRow.id)

/-- `re.sub(r"[^a-zA-Z0-9._-]", "_", ...)`. -/
def sanitize_filename (s : String) : String :=
  ⟨s.data.map (fun c =>
    if ('a' ≤ c ∧ c ≤ 'z') ∨ ('A' ≤ c ∧ c ≤ 'Z') ∨ ('0' ≤ c ∧ c ≤ '9') ∨
        c = '.' ∨ c = '_' ∨ c = '-' then c else '_')⟩

/-- One iteration of the upload loop.  A file already tagged with the current
deposition id is skipped; a missing or zero-byte local file, or a failed
upload HTTP call, marks just this file `status="error"` (status-only save);
a successful upload persists `repository` and `external_id`.  Only the
`ValueError` of link resolution escapes the loop. -/
def uploadOneFile (MEDIA_ROOT TEMP_ROOT : String) (fs : FS) (uploadFile : Nat → String → Bool)
    (deposition_id repoId : Nat) (f : FileRec) : Except PyErr FileRec :=
  if f.external_id == some deposition_id then .ok f
  else
    match link_to_local_path MEDIA_ROOT TEMP_ROOT f.link with
    | .error e => .error e
    | .ok local_path =>
      if (match fs local_path with
          | none => true
          | some size => size == 0) then .ok { f with status := "error" }
      else if uploadFile deposition_id (sanitize_filename (os_path_basename local_path)) then
        .ok { f with repository := some repoId, external_id := some deposition_id }
      else .ok { f with status := "error" }

/-- The upload loop over the eligible files, returning the file rows as saved
so far together with the uncaught exception that interrupted it, if any. -/
def uploadLoop (MEDIA_ROOT TEMP_ROOT : String) (fs : FS) (uploadFile : Nat → String → Bool)
    (deposition_id repoId : Nat) : List FileRec → List FileRec × Option PyErr
  | [] => ([], none)
  | f :: rest =>
    match uploadOneFile MEDIA_ROOT TEMP_ROOT fs uploadFile deposition_id repoId f with
    | .error e => (f :: rest, some e)
    | .ok f' =>
      let r := uploadLoop MEDIA_ROOT TEMP_ROOT fs uploadFile deposition_id repoId rest
      (f' :: r.1, r.2)

/-- The temp-cleanup loop: re-resolve every file's link and delete the local
copy when its path contains `/temp/` and the file exists. -/
def cleanupTempFiles (MEDIA_ROOT TEMP_ROOT : String) : List FileRec → FS → FS × Option PyErr
  | [], fs0 => (fs0, none)
  | f :: rest, fs0 =>
    match link_to_local_path MEDIA_ROOT TEMP_ROOT f.link with
    | .error e => (fs0, some e)
    | .ok local_path =>
      cleanupTempFiles MEDIA_ROOT TEMP_ROOT rest
        (if strContains local_path "/temp/" && (fs0 local_path).isSome then
          (fun q => if q = local_path then none else fs0 q) else fs0)

/-- `prepare_deposition_for_session(recording_session, new_file=None)` from
`utils/zenodo.py`, as a state transformer: it returns the file rows as saved
(the loop mutates and saves individual rows even when a later step raises),
the filesystem after temp cleanup, and the outcome — the deposition id, or
the exception that propagated.  The metadata `PUT` body
(`build_metadata_payload`) does not affect local state; only its HTTP outcome
(`env.putMetadata`, checked by `raise_for_status`) is modelled. -/
def prepare_deposition_for_session (env : ZenodoEnv) (sessionFiles : List FileRec)
    (new_file : Option FileRec) : List FileRec × FS × Except PyErr Nat :=
  let files := filesForDeposition sessionFiles new_file
  if files.isEmpty then
    (files, env.fs, .error (.valueError "No valid files found for this recording session."))
  else
    match depositionTarget env.createDeposition env.zenodoRepoRow files with
    | .error e => (files, env.fs, .error e)
    | .ok (deposition_id, repoId) =>
      match uploadLoop env.MEDIA_ROOT env.TEMP_ROOT env.fs env.uploadFile deposition_id repoId files with
      | (processed, some e) => (processed, env.fs, .error e)
      | (processed, none) =>
        match cleanupTempFiles env.MEDIA_ROOT env.TEMP_ROOT processed env.fs with
        | (fs', some e) => (processed, fs', .error e)
        | (fs', none) =>
          if env.putMetadata then (processed, fs', .ok deposition_id)
          else (processed, fs', .error (.httpError "metadata update failed"))

/-- The database view of the session's files after the builder has saved the
rows in `processed` (rows are matched by primary key). -/
def sessionAfter (sessionFiles processed : List FileRec) : List FileRec :=
  sessionFiles.map (fun f => (processed.find? (fun p => p.id == f.id)).getD f)

/-- What the upload loop does to each eligible file when exactly the file with
id `badId` fails: already-tagged files are untouched, the bad file gets a
status-only error mark, every other file is uploaded and tagged. -/
def expectedUpload (deposition_id repoId badId : Nat) (f : FileRec) : FileRec :=
  if f.external_id = some deposition_id then f
  else if f.id = badId then { f with status := "error" }
  else { f with repository := some repoId, external_id := some deposition_id }

/-- An eligible session file present on disk. -/
def fileA : FileRec :=
  { id := 1, name := some "a.wav", link := some "/media/a.wav", recording_session := some 7,
    status := "done", doi := none, external_id := none, external_url := none,
    is_valid_link := false, repository := none, sampling_rate := none, duration := none,
    bit_depth := none, format := none }

/-- The triggering file of the batch, missing on disk. -/
def fileB : FileRec :=
  { id := 2, name := some "b.wav", link := some "/media/b.wav", recording_session := some 7,
    status := "processing", doi := none, external_id := none, external_url := none,
    is_valid_link := false, repository := none, sampling_rate := none, duration := none,
    bit_depth := none, format := none }

/-- A concrete environment: only `/srv/media/a.wav` exists, the remote accepts
everything, draft creation yields deposition 42. -/
def envC1 : ZenodoEnv :=
  { MEDIA_ROOT := "/srv/media", TEMP_ROOT := "/srv/tmp",
    ZENODO_API := "https://sandbox.zenodo.org/api/",
    fs := fun p => if p = "/srv/media/a.wav" then some 3 else none,
    createDeposition := .ok 42,
    uploadFile := fun _ _ => true,
    putMetadata := true,
    publishAction := .ok (some "10.5072/zenodo.42"),
    zenodoRepoRow := { id := 1, name := "Zenodo" },
    deleteFileImpl := fun _ => .ok true }

/-- A fresh second file triggering the second invocation. -/
def fileC : FileRec :=
  { id := 3, name := some "c.wav", link := some "/media/c.wav", recording_session := some 7,
    status := "processing", doi := none, external_id := none, external_url := none,
    is_valid_link := false, repository := none, sampling_rate := none, duration := none,
    bit_depth := none, format := none }

/-- Like `envC1` but with both initial files present on disk. -/
def envC2 : ZenodoEnv :=
  { envC1 with fs := fun p =>
      if p = "/srv/media/a.wav" then some 3
      else if p = "/srv/media/b.wav" then some 4 else none }

/-! ### `mousetube_api/utils/zenodo.py`: `publish_deposition` -/

/-- Characters before the first occurrence of `pat` (the whole list if `pat`
does not occur): Python `s.split(pat)[0]`. -/
def takeBeforeSub (pat : List Char) : List Char → List Char
  | [] => []
  | c :: rest => if pat.isPrefixOf (c :: rest) then [] else c :: takeBeforeSub pat rest

/-- `base_url = ZENODO_API.split("/api")[0]`. -/
def zenodoBaseUrl (api : String) : String :=
  ⟨takeBeforeSub "/api".data api.data⟩

/-- The per-file update `publish_deposition` applies after a successful remote
publish: a file with a falsy `doi` whose `external_id` matches the deposition
gets the new DOI, download link and browse URL; a file with truthy `doi` and
truthy `link` gets its `repository` detached when its link does not start
with the base URL; every other file is untouched. -/
def publishFileUpdate (base_url : String) (deposition_id : Nat) (zenodo_doi : String)
    (f : FileRec) : FileRec :=
  if ¬ pyTruthyStr f.doi ∧ f.external_id = some deposition_id then
    { f with doi := some zenodo_doi,
             link := some (base_url ++ "/records/" ++ toString deposition_id ++ "/files/" ++
               pyStr f.name ++ "?download=1"),
             external_url := some (base_url ++ "/records/" ++ toString deposition_id) }
  else if pyTruthyStr f.doi ∧ pyTruthyStr f.link then
    if ¬ strStartsWith (f.link.getD "") base_url then { f with repository := none }
    else f
  else f

/-- `publish_deposition(recording_session, payload=None)` from
`utils/zenodo.py`.  The deposition id is taken from the first session file
with a non-null `external_id` (`ValueError` if none); an optional metadata
`PUT` precedes the publish action; a publish HTTP error or a missing `doi` in
the response is a `ValueError`; on success every session file is run through
`publishFileUpdate`. -/
def publish_deposition (env : ZenodoEnv) (files : List FileRec) (payload : Option Payload) :
    List FileRec × Except PyErr String :=
  match files.find? (fun f => f.external_id.isSome) with
  | none => (files, .error (.valueError "No Zenodo deposition_id found for this file/session."))
  | some first_file_with_id =>
    let deposition_id := first_file_with_id.external_id.getD 0
    if payload.isSome ∧ env.putMetadata = false then
      (files, .error (.httpError "metadata update failed"))
    else
      match env.publishAction with
      | .error content => (files, .error (.valueError ("Zenodo publish failed: " ++ content)))
      | .ok none => (files, .error (.valueError "Zenodo did not return a DOI after publishing."))
      | .ok (some zenodo_doi) =>
        (files.map (publishFileUpdate (zenodoBaseUrl env.ZENODO_API) deposition_id zenodo_doi),
          .ok zenodo_doi)

/-- A file already carrying a DOI that is the empty string (truthy-falsy edge:
non-null but falsy), tagged with deposition 42. -/
def fileD : FileRec :=
  { id := 4, name := some "d.wav", link := some "/media/d.wav", recording_session := some 7,
    status := "done", doi := some "", external_id := some 42, external_url := none,
    is_valid_link := false, repository := some 1, sampling_rate := none, duration := none,
    bit_depth := none, format := none }

/-- A file that already carries a real DOI pointing at another archive. -/
def fileE : FileRec :=
  { id := 11, name := some "e.wav", link := some "https://other.org/records/9/files/e.wav",
    recording_session := some 7, status := "done", doi := some "10.9999/other",
    external_id := some 42, external_url := none, is_valid_link := false,
    repository := some 3, sampling_rate := none, duration := none,
    bit_depth := none, format := none }

/-- A DOI-less file tagged with deposition 42. -/
def fileF : FileRec :=
  { id := 12, name := some "f.wav", link := some "/media/f.wav", recording_session := some 7,
    status := "done", doi := none, external_id := some 42, external_url := none,
    is_valid_link := false, repository := some 1, sampling_rate := none, duration := none,
    bit_depth := none, format := none }

/-- The rows `publish_deposition` saves for `[fileE, fileF]` under `envC1`. -/
def pubFilesC5 : List FileRec :=
  [{ fileE with repository := none },
   { fileF with doi := some "10.5072/zenodo.42",
                link := some "https://sandbox.zenodo.org/records/42/files/f.wav?download=1",
                external_url := some "https://sandbox.zenodo.org/records/42" }]

/-! ### `mousetube_api/tasks.py`: `publish_session_deposition`

The recording-session graph the task reads and the status tables it writes.
The snapshot's `models.py` predates the task code (it lacks the
`status` fields, the `Study` model and the session's `studies`/`references`
relations); those parts are modelled from spec §3: every related entity
carries a free-form `status` string, animal profiles optionally reference one
strain, software versions belong to one software, and references are attached
to software and hardware by many-to-many relations.  Entities are identified
by their primary keys; each `<entity>Status` map is that table's `status`
column. -/
structure SessionWorld where
  files : List FileRec
  sessionStatus : String
  protocol : Option Nat
  laboratory : Option Nat
  studies : List Nat
  animal_profiles : List Nat
  apStrain : Nat → Option Nat
  softwareVersions : List Nat
  versionSoftware : Nat → Nat
  soundcards : List Nat
  speakers : List Nat
  amplifiers : List Nat
  microphones : List Nat
  sessionReferences : List Nat
  refSoftware : Nat → List Nat
  refHardware : Nat → List Nat
  protocolStatus : Nat → String
  laboratoryStatus : Nat → String
  studyStatus : Nat → String
  animalProfileStatus : Nat → String
  strainStatus : Nat → String
  softwareStatus : Nat → String
  hardwareStatus : Nat → String
  referenceStatus : Nat → String

/-- The status cascade of `publish_session_deposition` up to the
directly-attached references: session → "published", then protocol,
laboratory, studies, animal profiles, the strains reached through the
profiles (guarded by `if strain_ids:`), the software reached through the
session's acquisition-software versions (`versions__in`, guarded by
`exists()`), each hardware role collection (guarded by `exists()`), and the
session's own references (unguarded). -/
def cascadeStatuses (w : SessionWorld) : SessionWorld :=
  -- Each ORM `.update(status="validated")` sets the status column of the
  -- selected rows and leaves every other row; the session's relation sets are
  -- not modified by the cascade, so the successive updates are recorded here
  -- as one pointwise update per column.  An `if <queryset>.exists():` /
  -- `if strain_ids:` guard only skips a no-op update; it is kept as a
  -- `¬ isEmpty ∧` conjunct.  The four sequential hardware-role updates write
  -- the same column; their composition is the disjunction of their filters.
  { w with
    sessionStatus := "published",
    protocolStatus := fun i => match w.protocol with
      | some p => if i = p then "validated" else w.protocolStatus i
      | none => w.protocolStatus i,
    laboratoryStatus := fun i => match w.laboratory with
      | some l => if i = l then "validated" else w.laboratoryStatus i
      | none => w.laboratoryStatus i,
    studyStatus := fun i =>
      if w.studies.contains i then "validated" else w.studyStatus i,
    animalProfileStatus := fun i =>
      if w.animal_profiles.contains i then "validated" else w.animalProfileStatus i,
    strainStatus := fun i =>
      if ¬ (w.animal_profiles.filterMap w.apStrain).isEmpty ∧
          (w.animal_profiles.filterMap w.apStrain).contains i then "validated"
      else w.strainStatus i,
    softwareStatus := fun s =>
      if ¬ w.softwareVersions.isEmpty ∧
          w.softwareVersions.any (fun v => w.versionSoftware v == s) then "validated"
      else w.softwareStatus s,
    hardwareStatus := fun hw =>
      if w.soundcards.contains hw ∨ w.speakers.contains hw ∨ w.amplifiers.contains hw ∨
          w.microphones.contains hw then "validated"
      else w.hardwareStatus hw,
    referenceStatus := fun rid =>
      if w.sessionReferences.contains rid then "validated" else w.referenceStatus rid }

/-- The `for hw in hardware_relations:` loop of the task: references attached
to hardware of each non-empty role collection become "validated" (the four
sequential updates write the same column; their composition is the
disjunction of their filters). -/
def cascadeHardwareRefs (w : SessionWorld) : SessionWorld :=
  { w with referenceStatus := fun rid =>
    if (¬ w.soundcards.isEmpty ∧
          (w.refHardware rid).any (fun hw => w.soundcards.contains hw)) ∨
        (¬ w.speakers.isEmpty ∧
          (w.refHardware rid).any (fun hw => w.speakers.contains hw)) ∨
        (¬ w.amplifiers.isEmpty ∧
          (w.refHardware rid).any (fun hw => w.amplifiers.contains hw)) ∨
        (¬ w.microphones.isEmpty ∧
          (w.refHardware rid).any (fun hw => w.microphones.contains hw)) then "validated"
    else w.referenceStatus rid }

/-- `files.filter(status="done").update(is_valid_link=True)`. -/
def markValidLinks (w : SessionWorld) : SessionWorld :=
  { w with files := w.files.map (fun f =>
    if f.status == "done" then { f with is_valid_link := true } else f) }

/-- `publish_session_deposition(recording_session_id, repository_id, payload)`
from `tasks.py`, as a state transformer returning the persisted world and the
outcome.  Each ORM `.update(...)` call persists immediately, so the world
accumulated so far is returned even when a later step raises.

The reference-validation step for acquisition software,
`Reference.objects.filter(software__in=rs.equipment_acquisition_software.all())`,
passes a queryset of `SoftwareVersion` rows where the `software` relation on
`Reference` targets `Software`; Django's `Query.check_related_objects` rejects
a queryset of the wrong model with
`ValueError('Cannot use QuerySet for "SoftwareVersion": Use a QuerySet for
"Software".')` at query-construction time, so the task fails there whenever
the session has acquisition software.  (`self.update_state` progress reports
carry no persistent state and are not modelled.) -/
def publish_session_deposition (modules : String → Option HandlerModule)
    (repoTable : Nat → Option RepositoryRec) (w : SessionWorld)
    (repository_id : Nat) (payload : Option Payload) :
    SessionWorld × Except PyErr String :=
  match repoTable repository_id with
  | none => (w, .error (.doesNotExist "Repository matching query does not exist."))
  | some repository =>
    if w.files.isEmpty then
      (w, .error (.valueError "No files found for this recording session."))
    else
      match publish_repository_deposition modules repository w.files payload with
      | .error e => (w, .error e)
      | .ok (files1, .error e) => ({ w with files := files1 }, .error e)
      | .ok (files1, .ok doi) =>
        let w1 := cascadeStatuses { w with files := files1 }
        if ¬ w1.softwareVersions.isEmpty then
          (w1, .error (.valueError
            "Cannot use QuerySet for \"SoftwareVersion\": Use a QuerySet for \"Software\"."))
        else
          (markValidLinks (cascadeHardwareRefs w1), .ok doi)

/-- The Zenodo handler module (the only module in `mousetube_api/utils/` that
implements the adapter interface), with the environment baked in.  The
metadata payload it builds is abstract (it never flows into local state). -/
def zenodoModule (env : ZenodoEnv) : HandlerModule :=
  { build_metadata_payload := some (fun _ => ()),
    prepare_deposition_for_session := some (fun sf nf => prepare_deposition_for_session env sf nf),
    publish_deposition := some (fun files payload => publish_deposition env files payload),
    delete_file := some env.deleteFileImpl,
    METADATA_SCHEMA := some () }

/-- The installed handler modules: exactly one, named "zenodo". -/
def zenodoModules (env : ZenodoEnv) : String → Option HandlerModule :=
  fun repo_name => if repo_name = "zenodo" then some (zenodoModule env) else none

/-- A session world with no files at all. -/
def sessionWorldC3 : SessionWorld :=
  { files := [], sessionStatus := "draft", protocol := some 1, laboratory := none,
    studies := [], animal_profiles := [], apStrain := fun _ => none,
    softwareVersions := [], versionSoftware := fun _ => 0,
    soundcards := [], speakers := [], amplifiers := [], microphones := [],
    sessionReferences := [], refSoftware := fun _ => [], refHardware := fun _ => [],
    protocolStatus := fun _ => "draft", laboratoryStatus := fun _ => "draft",
    studyStatus := fun _ => "draft", animalProfileStatus := fun _ => "draft",
    strainStatus := fun _ => "draft", softwareStatus := fun _ => "draft",
    hardwareStatus := fun _ => "draft", referenceStatus := fun _ => "draft" }

/-- A one-row repository table: row 1 is Zenodo. -/
def repoTableC3 : Nat → Option RepositoryRec :=
  fun i => if i = 1 then some { id := 1, name := "Zenodo" } else none

/-- A publishable session: one "done" file tagged with deposition 42, a
protocol, a laboratory, one study, one animal profile with a strain, one
soundcard, a direct reference and a reference attached to the soundcard, and
no acquisition software. -/
def sessionWorldC4 : SessionWorld :=
  { files := [fileF], sessionStatus := "draft", protocol := some 1, laboratory := some 2,
    studies := [3], animal_profiles := [4],
    apStrain := fun a => if a = 4 then some 5 else none,
    softwareVersions := [], versionSoftware := fun _ => 0,
    soundcards := [6], speakers := [], amplifiers := [], microphones := [],
    sessionReferences := [7], refSoftware := fun _ => [],
    refHardware := fun r => if r = 8 then [6] else [],
    protocolStatus := fun _ => "draft", laboratoryStatus := fun _ => "draft",
    studyStatus := fun _ => "draft", animalProfileStatus := fun _ => "draft",
    strainStatus := fun _ => "draft", softwareStatus := fun _ => "draft",
    hardwareStatus := fun _ => "draft", referenceStatus := fun _ => "draft" }

/-- The world persisted by publishing `sessionWorldC4`. -/
def publishedWorldC4 : SessionWorld :=
  (publish_session_deposition (zenodoModules envC1) repoTableC3 sessionWorldC4 1 none).1

/-! ### `mousetube_api/tasks.py`: `process_file` -/

/-- The repository-resolution conditionals at the top of `process_file`:
`if not repository_id and file_instance.repository_id: repository_id =
file_instance.repository_id` followed by `if not repository_id:
repository_id = 1` (Python truthiness: `None` and `0` are falsy). -/
def resolve_repository_id (repository_id file_repository_id : Option Nat) : Option Nat :=
  let repository_id :=
    if ¬ pyTruthyNat repository_id ∧ pyTruthyNat file_repository_id then file_repository_id
    else repository_id
  if ¬ pyTruthyNat repository_id then some 1 else repository_id

/-- `save(update_fields=["status"])` on the row with the given id. -/
def setFileStatus (files : List FileRec) (id : Nat) (st : String) : List FileRec :=
  files.map (fun f => if f.id == id then { f with status := st } else f)

/-- `process_file(file_id, repository_id)` from `tasks.py`, over the session's
file rows: mark the file "processing", resolve its link, extract metadata,
require a recording session, dispatch the deposition preparation, and mark
"done"; any exception in that body error-marks the file (status-only save)
and re-raises.  The `File.objects.get` and `Repository.objects.get` lookups
precede the `try` block, so their `DoesNotExist` failures change no status.
The adapter's filesystem effects are internal to the adapter result and are
not read back by the task, so they are dropped here. -/
def process_file (modules : String → Option HandlerModule)
    (repoTable : Nat → Option RepositoryRec) (MEDIA_ROOT TEMP_ROOT : String)
    (audio : String → Option AudioInfo) (sessionFiles : List FileRec)
    (file_id : Nat) (repository_id : Option Nat) : List FileRec × Except PyErr String :=
  match sessionFiles.find? (fun f => f.id == file_id) with
  | none => (sessionFiles, .error (.doesNotExist "File matching query does not exist."))
  | some file_instance =>
    match repoTable ((resolve_repository_id repository_id file_instance.repository).getD 0) with
    | none => (sessionFiles, .error (.doesNotExist "Repository matching query does not exist."))
    | some repository =>
      let files1 := setFileStatus sessionFiles file_id "processing"
      let fi1 := { file_instance with status := "processing" }
      match link_to_local_path MEDIA_ROOT TEMP_ROOT fi1.link with
      | .error e => (setFileStatus files1 file_id "error", .error e)
      | .ok local_path =>
        match extract_metadata audio fi1 local_path with
        | .error e => (setFileStatus files1 file_id "error", .error e)
        | .ok (fi2, _updated) =>
          -- the extractor saved exactly its updated fields; the row equals
          -- `fi2` whether or not the updated-field list was empty
          let files2 := files1.map (fun f => if f.id == file_id then fi2 else f)
          match fi2.recording_session with
          | none =>
            (setFileStatus files2 file_id "error",
              .error (.valueError "File has no recording session assigned."))
          | some _rs =>
            match prepare_repository_deposition_for_session modules repository files2 (some fi2) with
            | .error e => (setFileStatus files2 file_id "error", .error e)
            | .ok (files3, _fs, .error e) => (setFileStatus files3 file_id "error", .error e)
            | .ok (files3, _fs, .ok deposition_id) =>
              (setFileStatus files3 file_id "done",
                .ok s!"✅ File {fi2.id} processed successfully on {repository.name}, deposition {deposition_id}.")

/-- A pending file whose own repository is row 7. -/
def fileG : FileRec :=
  { id := 20, name := some "g.wav", link := some "/media/g.wav", recording_session := some 7,
    status := "pending", doi := none, external_id := none, external_url := none,
    is_valid_link := false, repository := some 7, sampling_rate := none, duration := none,
    bit_depth := none, format := none }

/-- The Zenodo environment for the `process_file` scenario. -/
def envG : ZenodoEnv :=
  { envC1 with fs := fun p => if p = "/srv/media/g.wav" then some 5 else none }

/-- The audio library for the scenario: `g.wav` is a readable 16-bit WAV. -/
def audioG : String → Option AudioInfo :=
  fun p => if p = "/srv/media/g.wav" then some ⟨44100, 88200, "PCM_16"⟩ else none

/-- Repository rows 1 and 7; both names normalize to the "zenodo" handler but
the raw names differ, so the success message identifies which row was used. -/
def repoTableG : Nat → Option RepositoryRec :=
  fun i => if i = 1 then some { id := 1, name := "Zenodo" }
    else if i = 7 then some { id := 7, name := " Zenodo " } else none

/-! ### Theorems -/

/-- C7: the path resolver applies, in order: empty-link rejection, http(s)
scheme/host stripping, `/media/` and `/temp/` prefix rewriting, with any other
path kept as-is, and URL-decodes and path-normalizes the result; and it is
deterministic (the same link always yields the same path). -/
theorem C7_path_resolver_rules :
    (∀ MEDIA_ROOT TEMP_ROOT link,
      link_to_local_path MEDIA_ROOT TEMP_ROOT link = resolveSpecRules MEDIA_ROOT TEMP_ROOT link) ∧
    (∀ MEDIA_ROOT TEMP_ROOT link r₁ r₂,
      link_to_local_path MEDIA_ROOT TEMP_ROOT link = r₁ →
      link_to_local_path MEDIA_ROOT TEMP_ROOT link = r₂ → r₁ = r₂) := by
  constructor
  · intro M T link
    cases link with
    | none => rfl
    | some l =>
      by_cases h : l = ""
      · subst h; rfl
      · simp [link_to_local_path, resolveSpecRules, h]
  · intro M T link r₁ r₂ h₁ h₂
    rw [← h₁, ← h₂]

/-- C7 witness: the rule equivalence and determinism at a concrete link. -/
theorem C7_path_resolver_rules_witness :
    link_to_local_path "/srv/media" "/srv/tmp" (some "https://mousetube.fr/media/a%20b.wav") =
      resolveSpecRules "/srv/media" "/srv/tmp" (some "https://mousetube.fr/media/a%20b.wav") ∧
    link_to_local_path "/srv/media" "/srv/tmp" (some "/temp/x/../y.wav") = .ok "/srv/tmp/y.wav" :=
  ⟨C7_path_resolver_rules.1 "/srv/media" "/srv/tmp" (some "https://mousetube.fr/media/a%20b.wav"),
   C7_path_resolver_rules.2 "/srv/media" "/srv/tmp" (some "/temp/x/../y.wav")
     (link_to_local_path "/srv/media" "/srv/tmp" (some "/temp/x/../y.wav")) (.ok "/srv/tmp/y.wav")
     rfl (by decide)⟩

/-- C9: the resolver rejects a link as empty only when the raw stored value is
falsy (NULL or the empty string) before whitespace stripping; a whitespace-only
link is not rejected: it is stripped to the empty string, matches no prefix
rule, and is returned as the normalized path ".". -/
theorem C9_whitespace_link_not_rejected :
    (∀ MEDIA_ROOT TEMP_ROOT,
      link_to_local_path MEDIA_ROOT TEMP_ROOT (some " ") = .ok ".") ∧
    (∀ MEDIA_ROOT TEMP_ROOT link,
      (∃ e, link_to_local_path MEDIA_ROOT TEMP_ROOT link = .error e) ↔
        (link = none ∨ link = some "")) := by
  constructor
  · intro M T
    rfl
  · intro M T link
    constructor
    · rintro ⟨e, he⟩
      cases link with
      | none => exact Or.inl rfl
      | some l =>
        by_cases h : l = ""
        · exact Or.inr (by rw [h])
        · simp [link_to_local_path, h] at he
    · rintro (h | h) <;> subst h
      · exact ⟨_, rfl⟩
      · exact ⟨_, rfl⟩

/-- Witness for C9 at concrete roots: a single-space link resolves to "." and a
NULL link is rejected with an error. -/
theorem C9_whitespace_link_not_rejected_witness :
    link_to_local_path "/srv/media" "/srv/tmp" (some " ") = .ok "." ∧
    ∃ e, link_to_local_path "/srv/media" "/srv/tmp" none = .error e :=
  ⟨C9_whitespace_link_not_rejected.1 "/srv/media" "/srv/tmp",
   (C9_whitespace_link_not_rejected.2 "/srv/media" "/srv/tmp" none).mpr (Or.inl rfl)⟩

/-- C6: on a supported, readable audio file, the extractor leaves a record
whose `sampling_rate`, `duration`, `bit_depth` and `format` are already
non-empty completely unchanged and persists nothing (empty `update_fields`);
in general it fills only currently-empty attributes and never overwrites a
previously set value. -/
theorem C6_extract_metadata_idempotent :
    (∀ audio fi local_path info,
      pyLower (os_path_splitext local_path).2 ∈ AUDIO_EXTENSIONS →
      audio local_path = some info →
      pyTruthyNat fi.sampling_rate → pyTruthyNat fi.duration →
      pyTruthyNat fi.bit_depth → pyTruthyStr fi.format →
      extract_metadata audio fi local_path = .ok (fi, [])) ∧
    (∀ audio fi local_path fi' updated,
      extract_metadata audio fi local_path = .ok (fi', updated) →
      (pyTruthyNat fi.sampling_rate → fi'.sampling_rate = fi.sampling_rate) ∧
      (pyTruthyNat fi.duration → fi'.duration = fi.duration) ∧
      (pyTruthyNat fi.bit_depth → fi'.bit_depth = fi.bit_depth) ∧
      (pyTruthyStr fi.format → fi'.format = fi.format) ∧
      (updated = [] → fi' = fi)) := by
  constructor
  · intro audio fi local_path info hext haudio h1 h2 h3 h4
    simp [extract_metadata, hext, haudio, h1, h2, h3, h4]
  · intro audio fi local_path fi' updated h
    by_cases hext : pyLower (os_path_splitext local_path).2 ∈ AUDIO_EXTENSIONS
    · cases haudio : audio local_path with
      | none => simp [extract_metadata, hext, haudio] at h
      | some info =>
        by_cases h1 : pyTruthyNat fi.sampling_rate <;>
        by_cases h2 : pyTruthyNat fi.duration <;>
        by_cases h3 : pyTruthyNat fi.bit_depth <;>
        by_cases h4 : pyTruthyStr fi.format <;>
        · simp [extract_metadata, hext, haudio, h1, h2, h3, h4] at h
          obtain ⟨hfi, hupd⟩ := h
          subst hfi
          subst hupd
          simp_all
    · simp [extract_metadata, hext] at h

/-- C6 witness: a fully populated record run on a readable 16-bit WAV is
returned unchanged with no fields to persist. -/
theorem C6_extract_metadata_idempotent_witness :
    pyLower (os_path_splitext "/srv/media/a.wav").2 ∈ AUDIO_EXTENSIONS ∧
    extract_metadata (fun p => if p = "/srv/media/a.wav" then some ⟨44100, 88200, "PCM_16"⟩ else none)
      fullFileRec "/srv/media/a.wav" = .ok (fullFileRec, []) :=
  ⟨by decide, C6_extract_metadata_idempotent.1 _ fullFileRec "/srv/media/a.wav"
    ⟨44100, 88200, "PCM_16"⟩ (by decide) rfl (by decide) (by decide) (by decide) (by decide)⟩

/-- C8: dispatch failure is a catchable not-supported error: the handler
resolver and each dispatch wrapper return a `NotImplementedError` value
(rather than crashing) whenever no module matches the lower-cased, stripped
repository name, or whenever the required operation is missing (not callable)
on the resolved handler. -/
theorem C8_dispatch_not_supported :
    ∀ (modules : String → Option HandlerModule) (repository : RepositoryRec),
      (modules (pyStrip (pyLower repository.name)) = none →
        get_repository_handler modules repository =
          .error (.notImplementedError s!"Repository '{repository.name}' is not yet supported.") ∧
        (∀ sf nf, prepare_repository_deposition_for_session modules repository sf nf =
          .error (.notImplementedError s!"Repository '{repository.name}' is not yet supported.")) ∧
        (∀ files payload, publish_repository_deposition modules repository files payload =
          .error (.notImplementedError s!"Repository '{repository.name}' is not yet supported.")) ∧
        (∀ f, delete_repository_file modules repository f =
          .error (.notImplementedError s!"Repository '{repository.name}' is not yet supported.")) ∧
        (∀ sf files, build_repository_metadata_payload modules repository sf files =
          .error (.notImplementedError s!"Repository '{repository.name}' is not yet supported."))) ∧
      (∀ m, modules (pyStrip (pyLower repository.name)) = some m →
        (m.prepare_deposition_for_session = none →
          ∀ sf nf, prepare_repository_deposition_for_session modules repository sf nf =
            .error (.notImplementedError
              s!"Repository '{repository.name}' does not implement 'prepare_deposition_for_session'")) ∧
        (m.publish_deposition = none →
          ∀ files payload, publish_repository_deposition modules repository files payload =
            .error (.notImplementedError
              s!"Repository '{repository.name}' does not implement 'publish_deposition'")) ∧
        (m.delete_file = none →
          ∀ f, delete_repository_file modules repository f =
            .error (.notImplementedError
              s!"Repository '{repository.name}' does not implement 'delete_file'")) ∧
        (m.build_metadata_payload = none →
          ∀ sf files, build_repository_metadata_payload modules repository sf files =
            .error (.notImplementedError
              s!"Repository '{repository.name}' does not implement 'build_metadata_payload'"))) := by
  intro modules repository
  constructor
  · intro hnone
    refine ⟨?_, ?_, ?_, ?_, ?_⟩ <;>
      simp [get_repository_handler, prepare_repository_deposition_for_session,
        publish_repository_deposition, delete_repository_file,
        build_repository_metadata_payload, hnone, bind, Except.bind]
  · intro m hsome
    refine ⟨?_, ?_, ?_, ?_⟩ <;> intro hop <;> intros <;>
      simp [get_repository_handler, prepare_repository_deposition_for_session,
        publish_repository_deposition, delete_repository_file,
        build_repository_metadata_payload, hsome, hop, bind, Except.bind]

/-- C8 witness: dispatch on an unknown repository name errors, and dispatch to
a resolved module with a missing operation errors, at concrete inputs. -/
theorem C8_dispatch_not_supported_witness :
    get_repository_handler witnessModules ghostRepository =
      .error (.notImplementedError "Repository 'Figshare' is not yet supported.") ∧
    publish_repository_deposition witnessModules ghostRepository [] none =
      .error (.notImplementedError "Repository 'Figshare' is not yet supported.") ∧
    prepare_repository_deposition_for_session witnessModules zenodoNamedRepository [] none =
      .error (.notImplementedError
        "Repository ' Zenodo ' does not implement 'prepare_deposition_for_session'") ∧
    delete_repository_file witnessModules zenodoNamedRepository fullFileRec =
      .error (.notImplementedError "Repository ' Zenodo ' does not implement 'delete_file'") :=
  ⟨((C8_dispatch_not_supported witnessModules ghostRepository).1 rfl).1,
   ((C8_dispatch_not_supported witnessModules ghostRepository).1 rfl).2.2.1 [] none,
   (((C8_dispatch_not_supported witnessModules zenodoNamedRepository).2 emptyHandlerModule
      rfl).1 rfl) [] none,
   (((C8_dispatch_not_supported witnessModules zenodoNamedRepository).2 emptyHandlerModule
      rfl).2.2.1 rfl) fullFileRec⟩

/-! Supporting lemmas about the upload and cleanup loops. -/

theorem uploadOneFile_ok_id_link {M T : String} {fs : FS} {up : Nat → String → Bool}
    {d r : Nat} {f f' : FileRec} (h : uploadOneFile M T fs up d r f = .ok f') :
    f'.id = f.id ∧ f'.link = f.link := by
  unfold uploadOneFile at h
  split at h
  · injection h with h; subst h; exact ⟨rfl, rfl⟩
  · split at h
    · exact (Except.noConfusion h)
    · split at h
      · injection h with h; subst h; exact ⟨rfl, rfl⟩
      · split at h
        · injection h with h; subst h; exact ⟨rfl, rfl⟩
        · injection h with h; subst h; exact ⟨rfl, rfl⟩

theorem uploadOneFile_ok_ext {M T : String} {fs : FS} {up : Nat → String → Bool}
    {d r : Nat} {f p : FileRec} (h : uploadOneFile M T fs up d r f = .ok p) :
    p.status = "error" ∨ p.external_id = some d := by
  unfold uploadOneFile at h
  split at h
  · next hskip =>
    injection h with h; subst h
    exact Or.inr (by simpa using hskip)
  · split at h
    · exact (Except.noConfusion h)
    · split at h
      · injection h with h; subst h; exact Or.inl rfl
      · split at h
        · injection h with h; subst h; exact Or.inr rfl
        · injection h with h; subst h; exact Or.inl rfl

theorem uploadLoop_eq_map {M T : String} {fs : FS} {up : Nat → String → Bool}
    {d r : Nat} {g : FileRec → FileRec} :
    ∀ {files : List FileRec},
      (∀ f ∈ files, uploadOneFile M T fs up d r f = .ok (g f)) →
      uploadLoop M T fs up d r files = (files.map g, none)
  | [], _ => rfl
  | f :: rest, h => by
    have hf := h f (List.mem_cons_self f rest)
    have hr := uploadLoop_eq_map (fun x hx => h x (List.mem_cons_of_mem f hx))
    simp [uploadLoop, hf, hr]

theorem uploadLoop_none_mem {M T : String} {fs : FS} {up : Nat → String → Bool}
    {d r : Nat} :
    ∀ {files ps : List FileRec},
      uploadLoop M T fs up d r files = (ps, none) →
      ∀ p ∈ ps, ∃ f ∈ files, uploadOneFile M T fs up d r f = .ok p := by
  intro files
  induction files with
  | nil =>
    intro ps h p hp
    simp [uploadLoop] at h
    subst h
    exact absurd hp (List.not_mem_nil p)
  | cons f rest ih =>
    intro ps h p hp
    rw [uploadLoop] at h
    cases hf : uploadOneFile M T fs up d r f with
    | error e => rw [hf] at h; simp at h
    | ok f' =>
      rw [hf] at h
      have h1 : f' :: (uploadLoop M T fs up d r rest).1 = ps := congrArg Prod.fst h
      have h2 : (uploadLoop M T fs up d r rest).2 = none := congrArg Prod.snd h
      subst h1
      rcases List.mem_cons.mp hp with hpf | hpr
      · exact ⟨f, List.mem_cons_self f rest, hpf ▸ hf⟩
      · obtain ⟨x, hx, hux⟩ := ih (Prod.mk.eta.symm.trans (by rw [h2])) p hpr
        exact ⟨x, List.mem_cons_of_mem f hx, hux⟩

theorem uploadLoop_none_ids {M T : String} {fs : FS} {up : Nat → String → Bool}
    {d r : Nat} :
    ∀ {files ps : List FileRec},
      uploadLoop M T fs up d r files = (ps, none) →
      ps.map FileRec.id = files.map FileRec.id := by
  intro files
  induction files with
  | nil =>
    intro ps h
    simp [uploadLoop] at h
    subst h; rfl
  | cons f rest ih =>
    intro ps h
    rw [uploadLoop] at h
    cases hf : uploadOneFile M T fs up d r f with
    | error e => rw [hf] at h; simp at h
    | ok f' =>
      rw [hf] at h
      have h1 : f' :: (uploadLoop M T fs up d r rest).1 = ps := congrArg Prod.fst h
      have h2 : (uploadLoop M T fs up d r rest).2 = none := congrArg Prod.snd h
      subst h1
      have := ih (show uploadLoop M T fs up d r rest =
          ((uploadLoop M T fs up d r rest).1, none) from Prod.mk.eta.symm.trans (by rw [h2]))
      simp [this, (uploadOneFile_ok_id_link hf).1]

theorem cleanupTempFiles_none {M T : String} :
    ∀ {files : List FileRec} (fs0 : FS),
      (∀ f ∈ files, ∃ p, link_to_local_path M T f.link = .ok p) →
      ∃ fs', cleanupTempFiles M T files fs0 = (fs', none) := by
  intro files
  induction files with
  | nil => intro fs0 _; exact ⟨fs0, rfl⟩
  | cons f rest ih =>
    intro fs0 h
    obtain ⟨p, hp⟩ := h f (List.mem_cons_self f rest)
    obtain ⟨fs', hfs'⟩ := ih (fun q => if q = p then none else fs0 q)
      (fun x hx => h x (List.mem_cons_of_mem f hx))
    simp only [cleanupTempFiles, hp]
    by_cases hc : (strContains p "/temp/" && (fs0 p).isSome) = true
    · rw [if_pos hc]
      exact ⟨fs', hfs'⟩
    · rw [if_neg hc]
      exact ih fs0 (fun x hx => h x (List.mem_cons_of_mem f hx))

theorem expectedUpload_link {d r i : Nat} {f : FileRec} :
    (expectedUpload d r i f).link = f.link := by
  unfold expectedUpload
  split
  · rfl
  · split <;> rfl

/-- C1: partial failure isolation in the deposition builder.  With a
non-empty eligible set, a determined deposition target, resolvable links, and
exactly one not-yet-tagged file `k` that is missing on disk, zero bytes, or
rejected by the upload endpoint (all other not-yet-tagged files uploading
cleanly), the builder marks only `k` with a status-only `"error"` save, still
uploads every other eligible file not yet tagged (persisting its `repository`
and `external_id`), leaves already-tagged files untouched, and returns the
deposition identifier. -/
theorem C1_partial_failure_isolation
    (env : ZenodoEnv) (sessionFiles : List FileRec) (new_file : Option FileRec)
    (k : FileRec) (files : List FileRec) (deposition_id repoId : Nat)
    (hfiles : filesForDeposition sessionFiles new_file = files)
    (hnodup : (files.map FileRec.id).Nodup)
    (hdep : depositionTarget env.createDeposition env.zenodoRepoRow files =
      .ok (deposition_id, repoId))
    (hk : k ∈ files)
    (hknot : k.external_id ≠ some deposition_id)
    (hbad : ∃ p, link_to_local_path env.MEDIA_ROOT env.TEMP_ROOT k.link = .ok p ∧
      (env.fs p = none ∨ env.fs p = some 0 ∨
        env.uploadFile deposition_id (sanitize_filename (os_path_basename p)) = false))
    (hgood : ∀ f ∈ files, f.id ≠ k.id → f.external_id ≠ some deposition_id →
      ∃ p, link_to_local_path env.MEDIA_ROOT env.TEMP_ROOT f.link = .ok p ∧
        (∃ size, env.fs p = some size ∧ size ≠ 0) ∧
        env.uploadFile deposition_id (sanitize_filename (os_path_basename p)) = true)
    (htagged : ∀ f ∈ files, f.external_id = some deposition_id →
      ∃ p, link_to_local_path env.MEDIA_ROOT env.TEMP_ROOT f.link = .ok p)
    (hput : env.putMetadata = true) :
    ∃ fs', prepare_deposition_for_session env sessionFiles new_file =
      (files.map (expectedUpload deposition_id repoId k.id), fs', .ok deposition_id) := by
  have hinj := List.inj_on_of_nodup_map hnodup
  -- each eligible file steps to its expected image
  have hstep : ∀ f ∈ files,
      uploadOneFile env.MEDIA_ROOT env.TEMP_ROOT env.fs env.uploadFile deposition_id repoId f =
        .ok (expectedUpload deposition_id repoId k.id f) := by
    intro f hf
    by_cases hext : f.external_id = some deposition_id
    · simp [uploadOneFile, expectedUpload, hext]
    · by_cases hid : f.id = k.id
      · have hfk : f = k := hinj hf hk hid
        subst hfk
        obtain ⟨p, hp, hfail⟩ := hbad
        rcases hfail with h1 | h1 | h1
        · simp [uploadOneFile, expectedUpload, hp, hext, h1]
        · simp [uploadOneFile, expectedUpload, hp, hext, h1]
        · by_cases hmiss : (match env.fs p with
              | none => true
              | some size => size == 0) = true
          · simp only [uploadOneFile, expectedUpload, hp, hmiss]
            simp [hext]
          · simp only [uploadOneFile, expectedUpload, hp]
            simp only [Bool.not_eq_true] at hmiss
            simp [hext, hmiss, h1]
      · obtain ⟨p, hp, ⟨size, hsize, hnz⟩, hup⟩ := hgood f hf hid hext
        simp [uploadOneFile, expectedUpload, hp, hext, hid, hsize, hup, hnz]
  have hloop := uploadLoop_eq_map hstep
  -- links of the processed rows still resolve, so cleanup completes
  have hlinks : ∀ q ∈ files.map (expectedUpload deposition_id repoId k.id),
      ∃ p, link_to_local_path env.MEDIA_ROOT env.TEMP_ROOT q.link = .ok p := by
    intro q hq
    obtain ⟨f, hf, hfq⟩ := List.mem_map.mp hq
    subst hfq
    rw [expectedUpload_link]
    by_cases hext : f.external_id = some deposition_id
    · exact htagged f hf hext
    · by_cases hid : f.id = k.id
      · have hfk : f = k := hinj hf hk hid
        subst hfk
        obtain ⟨p, hp, _⟩ := hbad
        exact ⟨p, hp⟩
      · obtain ⟨p, hp, _, _⟩ := hgood f hf hid hext
        exact ⟨p, hp⟩
  obtain ⟨fs', hclean⟩ := cleanupTempFiles_none env.fs hlinks
  have hne : files.isEmpty = false := by
    cases files with
    | nil => exact absurd hk (List.not_mem_nil k)
    | cons a l => rfl
  refine ⟨fs', ?_⟩
  simp only [prepare_deposition_for_session, hfiles, hne, hdep, hloop, hclean, hput,
    Bool.false_eq_true, if_false]
  simp

/-- C1 witness: with file 2 missing on disk, file 1 is still uploaded and
tagged, file 2 alone is error-marked, and deposition 42 is returned. -/
theorem C1_partial_failure_isolation_witness :
    ∃ fs', prepare_deposition_for_session envC1 [fileA, fileB] (some fileB) =
      ([fileA, fileB].map (expectedUpload 42 1 fileB.id), fs', .ok 42) :=
  C1_partial_failure_isolation envC1 [fileA, fileB] (some fileB) fileB [fileA, fileB] 42 1
    (by decide) (by decide) (by decide) (by decide) (by decide)
    ⟨"/srv/media/b.wav", by decide, Or.inl (by decide)⟩
    (by
      intro f hf hid hext
      rcases List.mem_cons.mp hf with h | h
      · subst h
        exact ⟨"/srv/media/a.wav", by decide, ⟨3, by decide, by decide⟩, by decide⟩
      · rcases List.mem_cons.mp h with h2 | h2
        · subst h2; exact absurd rfl hid
        · exact absurd h2 (List.not_mem_nil f))
    (by
      intro f hf hext
      rcases List.mem_cons.mp hf with h | h
      · subst h; exact absurd hext (by decide)
      · rcases List.mem_cons.mp h with h2 | h2
        · subst h2; exact absurd hext (by decide)
        · exact absurd h2 (List.not_mem_nil f))
    rfl

/-! Supporting lemmas for deposition reuse (C2). -/

theorem prepare_ok_cases (env : ZenodoEnv) (sf : List FileRec) (nf : Option FileRec) {d : Nat}
    (hok : (prepare_deposition_for_session env sf nf).2.2 = .ok d) :
    ∃ repoId,
      depositionTarget env.createDeposition env.zenodoRepoRow (filesForDeposition sf nf) =
        .ok (d, repoId) ∧
      uploadLoop env.MEDIA_ROOT env.TEMP_ROOT env.fs env.uploadFile d repoId
        (filesForDeposition sf nf) = ((prepare_deposition_for_session env sf nf).1, none) := by
  by_cases hne : (filesForDeposition sf nf).isEmpty = true
  · simp [prepare_deposition_for_session, hne] at hok
  · rw [Bool.not_eq_true] at hne
    cases hdep : depositionTarget env.createDeposition env.zenodoRepoRow (filesForDeposition sf nf) with
    | error e =>
      simp [prepare_deposition_for_session, hne, hdep] at hok
    | ok pr =>
      obtain ⟨dep, repoId⟩ := pr
      rcases huL : uploadLoop env.MEDIA_ROOT env.TEMP_ROOT env.fs env.uploadFile dep repoId
        (filesForDeposition sf nf) with ⟨ps, e⟩
      cases e with
      | some err => simp [prepare_deposition_for_session, hne, hdep, huL] at hok
      | none =>
        rcases hcl : cleanupTempFiles env.MEDIA_ROOT env.TEMP_ROOT ps env.fs with ⟨fs2, e2⟩
        cases e2 with
        | some err => simp [prepare_deposition_for_session, hne, hdep, huL, hcl] at hok
        | none =>
          by_cases hput : env.putMetadata = true
          · have hdd : dep = d := by
              simp [prepare_deposition_for_session, hne, hdep, huL, hcl, hput] at hok
              exact hok
            subst hdd
            refine ⟨repoId, rfl, ?_⟩
            rw [huL]
            simp [prepare_deposition_for_session, hne, hdep, huL, hcl, hput]
          · simp [prepare_deposition_for_session, hne, hdep, huL, hcl, hput] at hok

theorem prepare_reuse_core (env : ZenodoEnv) (sessionFiles : List FileRec)
    (new_file : Option FileRec) (f₀ : FileRec) (d : Nat)
    (hfind : (filesForDeposition sessionFiles new_file).find?
        (fun f => f.repository.isSome && f.external_id.isSome) = some f₀)
    (hd : f₀.external_id = some d) :
    (∀ x y, prepare_deposition_for_session { env with createDeposition := x } sessionFiles new_file =
        prepare_deposition_for_session { env with createDeposition := y } sessionFiles new_file) ∧
    (∀ n, (prepare_deposition_for_session env sessionFiles new_file).2.2 = .ok n → n = d) := by
  have hmem := List.mem_of_find?_eq_some hfind
  have hne : (filesForDeposition sessionFiles new_file).isEmpty = false := by
    cases hlist : filesForDeposition sessionFiles new_file with
    | nil => rw [hlist] at hmem; exact absurd hmem (List.not_mem_nil f₀)
    | cons a l => rfl
  have hdepAll : ∀ x zrow, depositionTarget x zrow
      (filesForDeposition sessionFiles new_file) = .ok (d, f₀.repository.getD 0) := by
    intro x zrow
    simp [depositionTarget, hfind, hd]
  constructor
  · intro x y
    simp [prepare_deposition_for_session, hne, hdepAll]
  · intro n hn
    obtain ⟨repoId, hdep2, _⟩ := prepare_ok_cases env sessionFiles new_file hn
    have h := (hdepAll env.createDeposition env.zenodoRepoRow).symm.trans hdep2
    injection h with h
    exact (congrArg Prod.fst h).symm

theorem prepare_ok_tagged (env : ZenodoEnv) (sf : List FileRec) (nf : Option FileRec) {d : Nat}
    (hok : (prepare_deposition_for_session env sf nf).2.2 = .ok d) :
    (((prepare_deposition_for_session env sf nf).1).map FileRec.id =
        (filesForDeposition sf nf).map FileRec.id) ∧
    ∀ p ∈ (prepare_deposition_for_session env sf nf).1,
      p.status ≠ "error" → p.repository.isSome → p.external_id.isSome →
      p.external_id = some d := by
  obtain ⟨repoId, hdep, huL⟩ := prepare_ok_cases env sf nf hok
  refine ⟨uploadLoop_none_ids huL, ?_⟩
  intro p hp hstat hrepo hext
  obtain ⟨f, hf, hup⟩ := uploadLoop_none_mem huL p hp
  rcases uploadOneFile_ok_ext hup with h | h
  · exact absurd h hstat
  · exact h

theorem mem_eligible_of_mem_filesFor {sf : List FileRec} {nf₂ g : FileRec}
    (h : g ∈ filesForDeposition sf (some nf₂)) : g ∈ eligibleFiles sf ∨ g = nf₂ := by
  simp only [filesForDeposition] at h
  by_cases hc : ((eligibleFiles sf).any (fun f => f.id == nf₂.id)) = true
  · rw [if_pos hc] at h
    exact Or.inl h
  · rw [if_neg hc] at h
    rcases List.mem_append.mp h with h1 | h1
    · exact Or.inl h1
    · exact Or.inr (List.mem_singleton.mp h1)

theorem eligible_subset_filesFor {sf : List FileRec} (nf : Option FileRec) {f : FileRec}
    (hf : f ∈ eligibleFiles sf) : f ∈ filesForDeposition sf nf := by
  cases nf with
  | none => exact hf
  | some n =>
    simp only [filesForDeposition]
    by_cases hc : ((eligibleFiles sf).any (fun f => f.id == n.id)) = true
    · rw [if_pos hc]; exact hf
    · rw [if_neg hc]; exact List.mem_append_left _ hf

theorem mem_eligible_status {l : List FileRec} {g : FileRec} (h : g ∈ eligibleFiles l) :
    g ∈ l ∧ g.status ≠ "error" ∧ g.doi = none := by
  rw [eligibleFiles] at h
  obtain ⟨hmem, hpred⟩ := List.mem_filter.mp h
  simp only [Bool.and_eq_true, bne_iff_ne, beq_iff_eq] at hpred
  exact ⟨hmem, hpred.1.2, hpred.2⟩

/-- C2: deposition reuse (idempotent creation).  If some eligible file already
carries both a `repository` and an `external_id`, the builder's result does
not depend on the remote draft-creation call, and any identifier it returns is
that first tagged file's `external_id`.  Consequently, a second invocation on
the saved state of a completed first invocation (triggered by a fresh second
file), as soon as some eligible file is tagged, is again independent of draft
creation and can only return the first invocation's deposition id. -/
theorem C2_deposition_reuse :
    (∀ (env : ZenodoEnv) (sf : List FileRec) (nf : Option FileRec) (f₀ : FileRec) (d : Nat),
      (filesForDeposition sf nf).find? (fun f => f.repository.isSome && f.external_id.isSome) =
        some f₀ →
      f₀.external_id = some d →
      (∀ x y, prepare_deposition_for_session { env with createDeposition := x } sf nf =
          prepare_deposition_for_session { env with createDeposition := y } sf nf) ∧
      (∀ n, (prepare_deposition_for_session env sf nf).2.2 = .ok n → n = d)) ∧
    (∀ (env env₂ : ZenodoEnv) (sf : List FileRec) (nf : Option FileRec) (nf₂ : FileRec) (d : Nat),
      (prepare_deposition_for_session env sf nf).2.2 = .ok d →
      nf₂.external_id = none →
      (∃ g ∈ filesForDeposition (sessionAfter sf (prepare_deposition_for_session env sf nf).1)
          (some nf₂), g.repository.isSome ∧ g.external_id.isSome) →
      (∀ x y,
        prepare_deposition_for_session { env₂ with createDeposition := x }
          (sessionAfter sf (prepare_deposition_for_session env sf nf).1) (some nf₂) =
        prepare_deposition_for_session { env₂ with createDeposition := y }
          (sessionAfter sf (prepare_deposition_for_session env sf nf).1) (some nf₂)) ∧
      (∀ n, (prepare_deposition_for_session env₂
          (sessionAfter sf (prepare_deposition_for_session env sf nf).1) (some nf₂)).2.2 =
            .ok n → n = d)) := by
  constructor
  · intro env sf nf f₀ d hfind hd
    exact prepare_reuse_core env sf nf f₀ d hfind hd
  · intro env env₂ sf nf nf₂ d hok hfresh hex
    obtain ⟨hids, htag⟩ := prepare_ok_tagged env sf nf hok
    -- the second run's eligible set has a first file with both fields set
    have hisSome : ((filesForDeposition
        (sessionAfter sf (prepare_deposition_for_session env sf nf).1) (some nf₂)).find?
          (fun f => f.repository.isSome && f.external_id.isSome)).isSome := by
      obtain ⟨g, hg, hg1, hg2⟩ := hex
      exact List.find?_isSome.mpr ⟨g, hg, by rw [Bool.and_eq_true]; exact ⟨hg1, hg2⟩⟩
    obtain ⟨g₀, hfind⟩ := Option.isSome_iff_exists.mp hisSome
    have hg₀mem := List.mem_of_find?_eq_some hfind
    have hg₀pred := List.find?_some hfind
    simp only [Bool.and_eq_true] at hg₀pred
    -- the found file carries the first run's deposition id
    have hg₀d : g₀.external_id = some d := by
      rcases mem_eligible_of_mem_filesFor hg₀mem with helig | heq
      · obtain ⟨hafter, hstat, _⟩ := mem_eligible_status helig
        simp only [sessionAfter] at hafter
        obtain ⟨f, hf, hFf⟩ := List.mem_map.mp hafter
        have hFf' : (((prepare_deposition_for_session env sf nf).1).find?
            (fun p => p.id == f.id)).getD f = g₀ := hFf
        cases hfnd : ((prepare_deposition_for_session env sf nf).1).find?
            (fun p => p.id == f.id) with
        | some p =>
          rw [hfnd] at hFf'
          simp only [Option.getD_some] at hFf'
          rw [← hFf']
          exact htag p (List.mem_of_find?_eq_some hfnd)
            (hFf' ▸ hstat) (hFf' ▸ hg₀pred.1) (hFf' ▸ hg₀pred.2)
        | none =>
          -- the row was untouched by the first run, so it was not eligible then,
          -- but it is eligible now and unchanged: contradiction
          have hg₀f : g₀ = f := by
            rw [hfnd] at hFf'
            exact hFf'.symm
          subst hg₀f
          have hfelig : g₀ ∈ eligibleFiles sf := by
            rw [eligibleFiles] at helig ⊢
            obtain ⟨_, hpred⟩ := List.mem_filter.mp helig
            exact List.mem_filter.mpr ⟨hf, hpred⟩
          have hffiles : g₀ ∈ filesForDeposition sf nf := eligible_subset_filesFor nf hfelig
          have : g₀.id ∈ ((prepare_deposition_for_session env sf nf).1).map FileRec.id := by
            rw [hids]
            exact List.mem_map.mpr ⟨g₀, hffiles, rfl⟩
          obtain ⟨p, hp, hpid⟩ := List.mem_map.mp this
          have := List.find?_eq_none.mp hfnd p hp
          simp [hpid] at this
      · subst heq
        rw [hfresh] at hg₀pred
        simp at hg₀pred
    exact prepare_reuse_core env₂ _ (some nf₂) g₀ d hfind hg₀d

/-- C2 witness: after a completed first run that tagged its files with
deposition 42, the second run (triggered by fresh file 3) gives the same
result whether the remote draft-creation call would succeed or fail — the
draft-creation endpoint plays no part. -/
theorem C2_deposition_reuse_witness :
    prepare_deposition_for_session { envC2 with createDeposition := .ok 77 }
      (sessionAfter [fileA, fileB]
        (prepare_deposition_for_session envC2 [fileA, fileB] (some fileB)).1) (some fileC) =
    prepare_deposition_for_session { envC2 with createDeposition := .error "remote down" }
      (sessionAfter [fileA, fileB]
        (prepare_deposition_for_session envC2 [fileA, fileB] (some fileB)).1) (some fileC) :=
  (C2_deposition_reuse.2 envC2 envC2 [fileA, fileB] (some fileB) fileC 42
    (by decide) (by decide) (by decide)).1 (.ok 77) (.error "remote down")

/-- C5 counterexample: `fileD.doi` is non-null (`some ""`), yet the publish
cascade overwrites both its `doi` and its `link` — the claim's "non-null doi"
guard does not match the code's truthiness test (`if not f.doi`). -/
theorem C5_doi_immutability_counterexample :
    fileD.doi ≠ none ∧
    ((publish_deposition envC1 [fileD] none).1.headD fileD).doi ≠ fileD.doi ∧
    ((publish_deposition envC1 [fileD] none).1.headD fileD).link ≠ fileD.link := by
  decide

/-- C5 (amended): on a successful publish, for every file with a non-empty
(truthy) `doi`, the cascade leaves `doi`, `link`, `external_url` and every
other attribute unchanged except `repository`, which is cleared exactly when
the file also has a non-empty `link` that does not start with the
repository's base URL; and files with a falsy `doi` whose `external_id`
equals the published deposition id are the only files whose `doi`, `link` and
`external_url` are written. -/
theorem C5_doi_immutability :
    ∀ (env : ZenodoEnv) (files : List FileRec) (payload : Option Payload) (doi : String)
      (files' : List FileRec),
      publish_deposition env files payload = (files', .ok doi) →
      ∃ deposition_id,
        (files.find? (fun f => f.external_id.isSome)).map FileRec.external_id =
          some (some deposition_id) ∧
        files' = files.map (publishFileUpdate (zenodoBaseUrl env.ZENODO_API) deposition_id doi) ∧
        ∀ f ∈ files,
          (pyTruthyStr f.doi →
            (publishFileUpdate (zenodoBaseUrl env.ZENODO_API) deposition_id doi f).doi = f.doi ∧
            (publishFileUpdate (zenodoBaseUrl env.ZENODO_API) deposition_id doi f).link = f.link ∧
            (publishFileUpdate (zenodoBaseUrl env.ZENODO_API) deposition_id doi f).external_url =
              f.external_url ∧
            (publishFileUpdate (zenodoBaseUrl env.ZENODO_API) deposition_id doi f).external_id =
              f.external_id ∧
            (publishFileUpdate (zenodoBaseUrl env.ZENODO_API) deposition_id doi f).status =
              f.status ∧
            (publishFileUpdate (zenodoBaseUrl env.ZENODO_API) deposition_id doi f).is_valid_link =
              f.is_valid_link ∧
            (publishFileUpdate (zenodoBaseUrl env.ZENODO_API) deposition_id doi f).repository =
              (if pyTruthyStr f.link ∧
                  ¬ strStartsWith (f.link.getD "") (zenodoBaseUrl env.ZENODO_API) then none
                else f.repository)) ∧
          (¬ pyTruthyStr f.doi → f.external_id ≠ some deposition_id →
            publishFileUpdate (zenodoBaseUrl env.ZENODO_API) deposition_id doi f = f) ∧
          (¬ pyTruthyStr f.doi → f.external_id = some deposition_id →
            (publishFileUpdate (zenodoBaseUrl env.ZENODO_API) deposition_id doi f).doi =
              some doi) := by
  intro env files payload doi files' h
  cases hfind : files.find? (fun f => f.external_id.isSome) with
  | none =>
    simp [publish_deposition, hfind] at h
  | some ff =>
    have hffSome : ff.external_id.isSome = true := by
      have := List.find?_some hfind
      simpa using this
    obtain ⟨dep, hdep⟩ := Option.isSome_iff_exists.mp hffSome
    refine ⟨dep, ?_, ?_, ?_⟩
    · simp [hdep]
    · by_cases hput : (payload.isSome ∧ env.putMetadata = false)
      · simp [publish_deposition, hfind, hput] at h
      · cases hpub : env.publishAction with
        | error content => simp [publish_deposition, hfind, hput, hpub] at h
        | ok od =>
          cases od with
          | none => simp [publish_deposition, hfind, hput, hpub] at h
          | some zdoi =>
            simp [publish_deposition, hfind, hput, hpub, hdep] at h
            rw [← h.1, h.2]
    · intro f _
      refine ⟨?_, ?_, ?_⟩
      · intro hdoi
        unfold publishFileUpdate
        rw [if_neg (by simp [hdoi])]
        by_cases hlink : pyTruthyStr f.link = true
        · rw [if_pos ⟨hdoi, hlink⟩]
          by_cases hstarts : strStartsWith (f.link.getD "") (zenodoBaseUrl env.ZENODO_API) = true
          · rw [if_neg (by simpa using hstarts)]
            simp [hlink, hstarts]
          · rw [if_pos (by simpa using hstarts)]
            simp [hlink, hstarts]
        · rw [if_neg (by simp [hlink])]
          simp [hlink]
      · intro hdoi hext
        unfold publishFileUpdate
        rw [if_neg (by simp [hdoi, hext]), if_neg (by simp [hdoi])]
      · intro hdoi hext
        unfold publishFileUpdate
        rw [if_pos ⟨by simpa using hdoi, hext⟩]

/-- C5 witness: a concrete successful publish where the DOI-bearing file keeps
its `doi`/`link` (only its `repository` is cleared, its link pointing
elsewhere) and the DOI-less tagged file is stamped. -/
theorem C5_doi_immutability_witness :
    ∃ deposition_id,
      (([fileE, fileF].find? (fun f => f.external_id.isSome)).map FileRec.external_id =
        some (some deposition_id)) ∧
      pubFilesC5 = [fileE, fileF].map
        (publishFileUpdate (zenodoBaseUrl envC1.ZENODO_API) deposition_id "10.5072/zenodo.42") ∧
      ∀ f ∈ [fileE, fileF],
        (pyTruthyStr f.doi →
          (publishFileUpdate (zenodoBaseUrl envC1.ZENODO_API) deposition_id "10.5072/zenodo.42" f).doi =
            f.doi ∧
          (publishFileUpdate (zenodoBaseUrl envC1.ZENODO_API) deposition_id "10.5072/zenodo.42" f).link =
            f.link ∧
          (publishFileUpdate (zenodoBaseUrl envC1.ZENODO_API) deposition_id "10.5072/zenodo.42" f).external_url =
            f.external_url ∧
          (publishFileUpdate (zenodoBaseUrl envC1.ZENODO_API) deposition_id "10.5072/zenodo.42" f).external_id =
            f.external_id ∧
          (publishFileUpdate (zenodoBaseUrl envC1.ZENODO_API) deposition_id "10.5072/zenodo.42" f).status =
            f.status ∧
          (publishFileUpdate (zenodoBaseUrl envC1.ZENODO_API) deposition_id "10.5072/zenodo.42" f).is_valid_link =
            f.is_valid_link ∧
          (publishFileUpdate (zenodoBaseUrl envC1.ZENODO_API) deposition_id "10.5072/zenodo.42" f).repository =
            (if pyTruthyStr f.link ∧
                ¬ strStartsWith (f.link.getD "") (zenodoBaseUrl envC1.ZENODO_API) then none
              else f.repository)) ∧
        (¬ pyTruthyStr f.doi → f.external_id ≠ some deposition_id →
          publishFileUpdate (zenodoBaseUrl envC1.ZENODO_API) deposition_id "10.5072/zenodo.42" f = f) ∧
        (¬ pyTruthyStr f.doi → f.external_id = some deposition_id →
          (publishFileUpdate (zenodoBaseUrl envC1.ZENODO_API) deposition_id "10.5072/zenodo.42" f).doi =
            some "10.5072/zenodo.42") :=
  C5_doi_immutability envC1 [fileE, fileF] none "10.5072/zenodo.42" pubFilesC5 (by decide)

/-- C3: publish preconditions.  `publish_session_deposition` fails with the
no-files `ValueError` when the session has zero files, for every module
environment and payload (so no handler — and hence no remote publish call —
is ever consulted) and with the world unchanged; and the Zenodo
`publish_deposition` fails with the no-deposition-id `ValueError` when no
session file carries a non-null `external_id`, for every remote environment
(so the publish endpoint outcome is irrelevant) and with the files
unchanged. -/
theorem C3_publish_preconditions :
    (∀ (modules : String → Option HandlerModule) (repoTable : Nat → Option RepositoryRec)
        (w : SessionWorld) (repository_id : Nat) (payload : Option Payload)
        (repository : RepositoryRec),
      repoTable repository_id = some repository →
      w.files = [] →
      publish_session_deposition modules repoTable w repository_id payload =
        (w, .error (.valueError "No files found for this recording session."))) ∧
    (∀ (env : ZenodoEnv) (files : List FileRec) (payload : Option Payload),
      (∀ f ∈ files, f.external_id = none) →
      publish_deposition env files payload =
        (files, .error (.valueError "No Zenodo deposition_id found for this file/session."))) := by
  constructor
  · intro modules repoTable w repository_id payload repository hrepo hfiles
    simp [publish_session_deposition, hrepo, hfiles]
  · intro env files payload h
    have hfind : files.find? (fun f => f.external_id.isSome) = none := by
      rw [List.find?_eq_none]
      intro f hf
      simp [h f hf]
    simp [publish_deposition, hfind]

/-- C3 witness: a zero-file session fails the task precondition, and a session
whose single file has no `external_id` fails the Zenodo precondition, both at
concrete inputs. -/
theorem C3_publish_preconditions_witness :
    publish_session_deposition witnessModules repoTableC3 sessionWorldC3 1 none =
      (sessionWorldC3, .error (.valueError "No files found for this recording session.")) ∧
    publish_deposition envC1 [fileA] none =
      ([fileA], .error (.valueError "No Zenodo deposition_id found for this file/session.")) :=
  ⟨C3_publish_preconditions.1 witnessModules repoTableC3 sessionWorldC3 1 none
      { id := 1, name := "Zenodo" } rfl rfl,
   C3_publish_preconditions.2 envC1 [fileA] none (by decide)⟩

/-! Supporting lemmas for the status cascade (C4). -/

theorem contains_of_mem {l : List Nat} {x : Nat} (h : x ∈ l) : l.contains x = true :=
  List.elem_iff.mpr h

theorem isEmpty_false_of_mem {l : List Nat} {x : Nat} (h : x ∈ l) : l.isEmpty = false := by
  cases l with
  | nil => cases h
  | cons a t => rfl

theorem cascadeStatuses_preserves (w : SessionWorld) :
    (cascadeStatuses w).files = w.files ∧
    (cascadeStatuses w).softwareVersions = w.softwareVersions ∧
    (cascadeStatuses w).soundcards = w.soundcards ∧
    (cascadeStatuses w).speakers = w.speakers ∧
    (cascadeStatuses w).amplifiers = w.amplifiers ∧
    (cascadeStatuses w).microphones = w.microphones ∧
    (cascadeStatuses w).refHardware = w.refHardware :=
  ⟨rfl, rfl, rfl, rfl, rfl, rfl, rfl⟩

theorem cascadeStatuses_sessionStatus (w : SessionWorld) :
    (cascadeStatuses w).sessionStatus = "published" := rfl

theorem cascadeStatuses_protocolStatus {w : SessionWorld} {p : Nat} (hp : w.protocol = some p) :
    (cascadeStatuses w).protocolStatus p = "validated" := by
  simp [cascadeStatuses, hp]

theorem cascadeStatuses_laboratoryStatus {w : SessionWorld} {l : Nat}
    (hl : w.laboratory = some l) :
    (cascadeStatuses w).laboratoryStatus l = "validated" := by
  simp [cascadeStatuses, hl]

theorem cascadeStatuses_studyStatus {w : SessionWorld} {s : Nat} (hs : s ∈ w.studies) :
    (cascadeStatuses w).studyStatus s = "validated" := by
  simp only [cascadeStatuses]
  rw [if_pos (contains_of_mem hs)]

theorem cascadeStatuses_animalProfileStatus {w : SessionWorld} {a : Nat}
    (ha : a ∈ w.animal_profiles) :
    (cascadeStatuses w).animalProfileStatus a = "validated" := by
  simp only [cascadeStatuses]
  rw [if_pos (contains_of_mem ha)]

theorem cascadeStatuses_strainStatus {w : SessionWorld} {a st : Nat}
    (ha : a ∈ w.animal_profiles) (hst : w.apStrain a = some st) :
    (cascadeStatuses w).strainStatus st = "validated" := by
  have hmem : st ∈ w.animal_profiles.filterMap w.apStrain :=
    List.mem_filterMap.mpr ⟨a, ha, hst⟩
  simp only [cascadeStatuses]
  rw [if_pos ⟨by simp [isEmpty_false_of_mem hmem], contains_of_mem hmem⟩]

theorem cascadeStatuses_hardwareStatus {w : SessionWorld} {hw : Nat}
    (h : hw ∈ w.soundcards ∨ hw ∈ w.speakers ∨ hw ∈ w.amplifiers ∨ hw ∈ w.microphones) :
    (cascadeStatuses w).hardwareStatus hw = "validated" := by
  simp only [cascadeStatuses]
  rcases h with h | h | h | h
  · rw [if_pos (Or.inl (contains_of_mem h))]
  · rw [if_pos (Or.inr (Or.inl (contains_of_mem h)))]
  · rw [if_pos (Or.inr (Or.inr (Or.inl (contains_of_mem h))))]
  · rw [if_pos (Or.inr (Or.inr (Or.inr (contains_of_mem h))))]

theorem cascadeStatuses_referenceStatus {w : SessionWorld} {rid : Nat}
    (h : rid ∈ w.sessionReferences) :
    (cascadeStatuses w).referenceStatus rid = "validated" := by
  simp only [cascadeStatuses]
  rw [if_pos (contains_of_mem h)]

theorem cascadeHardwareRefs_preserves (w : SessionWorld) :
    (cascadeHardwareRefs w).files = w.files ∧
    (cascadeHardwareRefs w).sessionStatus = w.sessionStatus ∧
    (cascadeHardwareRefs w).protocolStatus = w.protocolStatus ∧
    (cascadeHardwareRefs w).laboratoryStatus = w.laboratoryStatus ∧
    (cascadeHardwareRefs w).studyStatus = w.studyStatus ∧
    (cascadeHardwareRefs w).animalProfileStatus = w.animalProfileStatus ∧
    (cascadeHardwareRefs w).strainStatus = w.strainStatus ∧
    (cascadeHardwareRefs w).softwareStatus = w.softwareStatus ∧
    (cascadeHardwareRefs w).hardwareStatus = w.hardwareStatus :=
  ⟨rfl, rfl, rfl, rfl, rfl, rfl, rfl, rfl, rfl⟩

theorem cascadeHardwareRefs_keeps_validated {w : SessionWorld} {rid : Nat}
    (h : w.referenceStatus rid = "validated") :
    (cascadeHardwareRefs w).referenceStatus rid = "validated" := by
  simp only [cascadeHardwareRefs]
  split_ifs <;> simp [h]

theorem cascadeHardwareRefs_hits {w : SessionWorld} {rid hw : Nat}
    (hmem : hw ∈ w.refHardware rid)
    (hrole : hw ∈ w.soundcards ∨ hw ∈ w.speakers ∨ hw ∈ w.amplifiers ∨ hw ∈ w.microphones) :
    (cascadeHardwareRefs w).referenceStatus rid = "validated" := by
  simp only [cascadeHardwareRefs]
  rcases hrole with h | h | h | h
  · rw [if_pos (Or.inl ⟨by simp [isEmpty_false_of_mem h],
      List.any_eq_true.mpr ⟨hw, hmem, contains_of_mem h⟩⟩)]
  · rw [if_pos (Or.inr (Or.inl ⟨by simp [isEmpty_false_of_mem h],
      List.any_eq_true.mpr ⟨hw, hmem, contains_of_mem h⟩⟩))]
  · rw [if_pos (Or.inr (Or.inr (Or.inl ⟨by simp [isEmpty_false_of_mem h],
      List.any_eq_true.mpr ⟨hw, hmem, contains_of_mem h⟩⟩)))]
  · rw [if_pos (Or.inr (Or.inr (Or.inr ⟨by simp [isEmpty_false_of_mem h],
      List.any_eq_true.mpr ⟨hw, hmem, contains_of_mem h⟩⟩)))]

theorem publishFileUpdate_keeps (b : String) (d : Nat) (z : String) (f : FileRec) :
    (publishFileUpdate b d z f).status = f.status ∧
    (publishFileUpdate b d z f).is_valid_link = f.is_valid_link := by
  unfold publishFileUpdate
  split_ifs <;> exact ⟨rfl, rfl⟩

theorem publish_deposition_ok_map (env : ZenodoEnv) (files : List FileRec)
    (payload : Option Payload) (doi : String) (files' : List FileRec)
    (h : publish_deposition env files payload = (files', .ok doi)) :
    ∃ dep, files' = files.map (publishFileUpdate (zenodoBaseUrl env.ZENODO_API) dep doi) := by
  cases hfind : files.find? (fun f => f.external_id.isSome) with
  | none => simp [publish_deposition, hfind] at h
  | some ff =>
    by_cases hput : (payload.isSome ∧ env.putMetadata = false)
    · simp [publish_deposition, hfind, hput] at h
    · cases hpub : env.publishAction with
      | error c => simp [publish_deposition, hfind, hput, hpub] at h
      | ok od =>
        cases od with
        | none => simp [publish_deposition, hfind, hput, hpub] at h
        | some z =>
          simp [publish_deposition, hfind, hput, hpub] at h
          exact ⟨ff.external_id.getD 0, by rw [← h.1, h.2]⟩

/-- C4: status cascade completeness.  After a successful
`publish_session_deposition` run (with the Zenodo adapter as the installed
handler), the session is "published"; its protocol, laboratory, studies,
animal profiles, strains reachable through those profiles, software reachable
through acquisition-software versions, all hardware in the four role
collections, directly-attached references, references attached to that
software, and references attached to that hardware are all "validated"; and
each session file whose status is "done" has `is_valid_link = true` while
every other file keeps its previous `is_valid_link` (statuses unchanged). -/
theorem C4_status_cascade_completeness
    (env : ZenodoEnv) (repoTable : Nat → Option RepositoryRec) (w : SessionWorld)
    (repository_id : Nat) (payload : Option Payload) (w' : SessionWorld) (doi : String)
    (h : publish_session_deposition (zenodoModules env) repoTable w repository_id payload =
      (w', .ok doi)) :
    w'.sessionStatus = "published" ∧
    (∀ p, w.protocol = some p → w'.protocolStatus p = "validated") ∧
    (∀ l, w.laboratory = some l → w'.laboratoryStatus l = "validated") ∧
    (∀ s ∈ w.studies, w'.studyStatus s = "validated") ∧
    (∀ a ∈ w.animal_profiles, w'.animalProfileStatus a = "validated") ∧
    (∀ a ∈ w.animal_profiles, ∀ st, w.apStrain a = some st →
      w'.strainStatus st = "validated") ∧
    (∀ v ∈ w.softwareVersions, w'.softwareStatus (w.versionSoftware v) = "validated") ∧
    (∀ hw, (hw ∈ w.soundcards ∨ hw ∈ w.speakers ∨ hw ∈ w.amplifiers ∨ hw ∈ w.microphones) →
      w'.hardwareStatus hw = "validated") ∧
    (∀ rid ∈ w.sessionReferences, w'.referenceStatus rid = "validated") ∧
    (∀ rid v, v ∈ w.softwareVersions → w.versionSoftware v ∈ w.refSoftware rid →
      w'.referenceStatus rid = "validated") ∧
    (∀ rid hw, hw ∈ w.refHardware rid →
      (hw ∈ w.soundcards ∨ hw ∈ w.speakers ∨ hw ∈ w.amplifiers ∨ hw ∈ w.microphones) →
      w'.referenceStatus rid = "validated") ∧
    List.Forall₂ (fun f f' => f'.status = f.status ∧
      (f.status = "done" → f'.is_valid_link = true) ∧
      (f.status ≠ "done" → f'.is_valid_link = f.is_valid_link)) w.files w'.files := by
  cases hrepo : repoTable repository_id with
  | none => simp [publish_session_deposition, hrepo] at h
  | some repository =>
    by_cases hne : w.files.isEmpty = true
    · simp [publish_session_deposition, hrepo, hne] at h
    · cases hdisp : publish_repository_deposition (zenodoModules env) repository w.files payload with
      | error e =>
        simp [publish_session_deposition, hrepo, hne, hdisp] at h
      | ok pr =>
        obtain ⟨files1, inner⟩ := pr
        cases inner with
        | error e =>
          simp [publish_session_deposition, hrepo, hne, hdisp] at h
        | ok doi1 =>
          have hpres := cascadeStatuses_preserves { w with files := files1 }
          by_cases hsw : (cascadeStatuses { w with files := files1 }).softwareVersions.isEmpty = true
          · simp [publish_session_deposition, hrepo, hne, hdisp, hsw] at h
            obtain ⟨hw', hdoi⟩ := h
            -- the session's software-version set is empty on any successful run
            have hswEmpty : w.softwareVersions = [] := by
              have := hpres.2.1
              rw [this] at hsw
              exact List.isEmpty_iff.mp hsw
            -- the dispatched handler is the Zenodo adapter
            have hfiles1 : ∃ dep, files1 = w.files.map
                (publishFileUpdate (zenodoBaseUrl env.ZENODO_API) dep doi1) := by
              cases hmod : zenodoModules env (pyStrip (pyLower repository.name)) with
              | none =>
                simp [publish_repository_deposition, get_repository_handler, hmod,
                  bind, Except.bind] at hdisp
              | some m =>
                have hm : m = zenodoModule env := by
                  by_cases hname : pyStrip (pyLower repository.name) = "zenodo"
                  · rw [zenodoModules, if_pos hname] at hmod
                    exact (Option.some.inj hmod).symm
                  · rw [zenodoModules, if_neg hname] at hmod
                    exact absurd hmod (by simp)
                subst hm
                simp [publish_repository_deposition, get_repository_handler, hmod,
                  zenodoModule, bind, Except.bind] at hdisp
                exact publish_deposition_ok_map env w.files payload doi1 files1 hdisp
            subst hw'
            refine ⟨?_, ?_, ?_, ?_, ?_, ?_, ?_, ?_, ?_, ?_, ?_, ?_⟩
            · exact cascadeStatuses_sessionStatus { w with files := files1 }
            · intro p hp
              exact @cascadeStatuses_protocolStatus { w with files := files1 } p hp
            · intro l hl
              exact @cascadeStatuses_laboratoryStatus { w with files := files1 } l hl
            · intro s hs
              exact @cascadeStatuses_studyStatus { w with files := files1 } s hs
            · intro a ha
              exact @cascadeStatuses_animalProfileStatus { w with files := files1 } a ha
            · intro a ha st hst
              exact @cascadeStatuses_strainStatus { w with files := files1 } a st ha hst
            · intro v hv
              rw [hswEmpty] at hv
              exact absurd hv (List.not_mem_nil v)
            · intro hw hrole
              exact @cascadeStatuses_hardwareStatus { w with files := files1 } hw hrole
            · intro rid hrid
              exact cascadeHardwareRefs_keeps_validated
                (@cascadeStatuses_referenceStatus { w with files := files1 } rid hrid)
            · intro rid v hv _
              rw [hswEmpty] at hv
              exact absurd hv (List.not_mem_nil v)
            · intro rid hw hmem hrole
              exact @cascadeHardwareRefs_hits (cascadeStatuses { w with files := files1 })
                rid hw hmem hrole
            · obtain ⟨dep, hdep⟩ := hfiles1
              show List.Forall₂ _ w.files (files1.map
                (fun f => if f.status == "done" then { f with is_valid_link := true } else f))
              rw [hdep, List.map_map, List.forall₂_map_right_iff, List.forall₂_same]
              intro f _
              simp only [Function.comp_apply]
              by_cases hdone : f.status = "done" <;>
                simp [(publishFileUpdate_keeps (zenodoBaseUrl env.ZENODO_API) dep doi1 f).1,
                  (publishFileUpdate_keeps (zenodoBaseUrl env.ZENODO_API) dep doi1 f).2, hdone]
          · simp [publish_session_deposition, hrepo, hne, hdisp, hsw] at h

/-- C4 witness: the cascade conclusions at a concrete successful publish. -/
theorem C4_status_cascade_completeness_witness :
    publishedWorldC4.sessionStatus = "published" ∧
    (∀ p, sessionWorldC4.protocol = some p → publishedWorldC4.protocolStatus p = "validated") ∧
    (∀ l, sessionWorldC4.laboratory = some l → publishedWorldC4.laboratoryStatus l = "validated") ∧
    (∀ s ∈ sessionWorldC4.studies, publishedWorldC4.studyStatus s = "validated") ∧
    (∀ a ∈ sessionWorldC4.animal_profiles,
      publishedWorldC4.animalProfileStatus a = "validated") ∧
    (∀ a ∈ sessionWorldC4.animal_profiles, ∀ st, sessionWorldC4.apStrain a = some st →
      publishedWorldC4.strainStatus st = "validated") ∧
    (∀ v ∈ sessionWorldC4.softwareVersions,
      publishedWorldC4.softwareStatus (sessionWorldC4.versionSoftware v) = "validated") ∧
    (∀ hw, (hw ∈ sessionWorldC4.soundcards ∨ hw ∈ sessionWorldC4.speakers ∨
        hw ∈ sessionWorldC4.amplifiers ∨ hw ∈ sessionWorldC4.microphones) →
      publishedWorldC4.hardwareStatus hw = "validated") ∧
    (∀ rid ∈ sessionWorldC4.sessionReferences,
      publishedWorldC4.referenceStatus rid = "validated") ∧
    (∀ rid v, v ∈ sessionWorldC4.softwareVersions →
      sessionWorldC4.versionSoftware v ∈ sessionWorldC4.refSoftware rid →
      publishedWorldC4.referenceStatus rid = "validated") ∧
    (∀ rid hw, hw ∈ sessionWorldC4.refHardware rid →
      (hw ∈ sessionWorldC4.soundcards ∨ hw ∈ sessionWorldC4.speakers ∨
        hw ∈ sessionWorldC4.amplifiers ∨ hw ∈ sessionWorldC4.microphones) →
      publishedWorldC4.referenceStatus rid = "validated") ∧
    List.Forall₂ (fun f f' => f'.status = f.status ∧
      (f.status = "done" → f'.is_valid_link = true) ∧
      (f.status ≠ "done" → f'.is_valid_link = f.is_valid_link))
      sessionWorldC4.files publishedWorldC4.files :=
  C4_status_cascade_completeness envC1 repoTableC3 sessionWorldC4 1 none publishedWorldC4
    "10.5072/zenodo.42"
    (by
      have h2 : (publish_session_deposition (zenodoModules envC1) repoTableC3
          sessionWorldC4 1 none).2 = Except.ok "10.5072/zenodo.42" := by decide
      exact Prod.mk.eta.symm.trans (by rw [h2]; rfl))

/-- C10 counterexample: invoked with the explicit (but falsy) repository id 0
on a file whose own repository is row 7, the task behaves exactly as if no
repository id had been given and prepares the deposition against row 7 (" Zenodo "),
although repository row 0 does not even exist — the explicit argument did not
take precedence. -/
theorem C10_process_file_counterexample :
    process_file (zenodoModules envG) repoTableG "/srv/media" "/srv/tmp" audioG
      [fileG] 20 (some 0) =
      process_file (zenodoModules envG) repoTableG "/srv/media" "/srv/tmp" audioG
        [fileG] 20 none ∧
    (process_file (zenodoModules envG) repoTableG "/srv/media" "/srv/tmp" audioG
      [fileG] 20 (some 0)).2 =
      .ok "✅ File 20 processed successfully on  Zenodo , deposition 42." ∧
    repoTableG 0 = none := by
  decide

/-- C10 (amended): with a falsy (`None` or `0`) `repository_id` the task uses
the file's own repository when that is truthy and otherwise silently falls
back to the `Repository` row with primary key 1, behaving exactly as if
`repository_id=1` had been passed; a truthy (nonzero) explicit
`repository_id` takes precedence over the file's own repository. -/
theorem C10_process_file_repository_fallback :
    (∀ frep, resolve_repository_id none frep =
      (if pyTruthyNat frep then frep else some 1)) ∧
    (∀ r frep, r ≠ 0 → resolve_repository_id (some r) frep = some r) ∧
    (∀ frep, resolve_repository_id (some 0) frep =
      (if pyTruthyNat frep then frep else some 1)) ∧
    (∀ (modules : String → Option HandlerModule) (repoTable : Nat → Option RepositoryRec)
        (M T : String) (audio : String → Option AudioInfo) (sessionFiles : List FileRec)
        (file_id : Nat) (f : FileRec),
      sessionFiles.find? (fun f => f.id == file_id) = some f →
      f.repository = none →
      process_file modules repoTable M T audio sessionFiles file_id none =
        process_file modules repoTable M T audio sessionFiles file_id (some 1)) := by
  refine ⟨?_, ?_, ?_, ?_⟩
  · intro frep
    by_cases hf : pyTruthyNat frep = true <;>
      simp [resolve_repository_id, hf, show pyTruthyNat none = false from rfl]
  · intro r frep hr
    have ht : pyTruthyNat (some r) = true := by simp [pyTruthyNat, hr]
    simp [resolve_repository_id, ht]
  · intro frep
    by_cases hf : pyTruthyNat frep = true <;>
      simp [resolve_repository_id, hf, show pyTruthyNat (some 0) = false from rfl]
  · intro modules repoTable M T audio sessionFiles file_id f hfind hfrep
    simp only [process_file, hfind, hfrep]
    rfl

/-- C10 witness: the fallback equivalence and the precedence rule at concrete
inputs (file 20's row with no repository of its own). -/
theorem C10_process_file_repository_fallback_witness :
    process_file (zenodoModules envG) repoTableG "/srv/media" "/srv/tmp" audioG
      [{ fileG with repository := none }] 20 none =
      process_file (zenodoModules envG) repoTableG "/srv/media" "/srv/tmp" audioG
        [{ fileG with repository := none }] 20 (some 1) ∧
    resolve_repository_id (some 5) (some 7) = some 5 :=
  ⟨C10_process_file_repository_fallback.2.2.2 (zenodoModules envG) repoTableG
      "/srv/media" "/srv/tmp" audioG [{ fileG with repository := none }] 20
      { fileG with repository := none } (by decide) rfl,
   C10_process_file_repository_fallback.2.1 5 (some 7) (by decide)⟩

end Mousetube
